import Mathlib

/-!
Shallow embedding of the memory-subsystem cache code (l1_cache.c and
l2_cache.c) and verification of the frozen claims about it.

Modelling conventions:
* C `uint32_t` values are embedded as `Nat`; wherever C arithmetic can wrap,
  an explicit truncation `&&& UINT32_MAX` is inserted.  `x & ~MASK` on a
  32-bit unsigned word is embedded as `x &&& (UINT32_MAX ^^^ MASK)`.
* A C array of 16 words (one cache line) is embedded as a total map
  `Nat → Nat`; only indices 0..15 are meaningful.  The word-by-word copy
  loops of the C code copy exactly those 16 words, which is embedded as
  replacing the whole map.
* The cache arrays (`l1_cache`, `l2_cache[set].lines`) are embedded as total
  maps from the `Nat` index; the C code only ever indexes them with the
  decoded (masked) index, so only the in-range part of the map is reachable.
* The C functions mutate global arrays and out-parameters; they are embedded
  as pure functions from the old state (cache, out-parameter values) to the
  new state, returned as a tuple in the order (cache, outputs..., status).
* The sentinel `NOT_FOUND` for the uint32 tier registers of
  `l2_insert_line` is embedded as `Option Nat` with `none` for `NOT_FOUND`.
-/

/-! ### Shared constants (memory_subsystem_constants.h) -/

def WORDS_PER_CACHE_LINE : Nat := 16

def READ_ENABLE_MASK : Nat := 0x1

def WRITE_ENABLE_MASK : Nat := 0x2

/-- All-ones 32-bit word, used to embed C bit complement on `uint32_t`. -/
def UINT32_MAX : Nat := 0xffffffff

/-- A 16-word cache line: C `uint32_t cache_line[WORDS_PER_CACHE_LINE]`,
embedded as a total map; indices 0..15 are the meaningful ones. -/
abbrev CacheLine := Nat → Nat

/-! ### L1 cache data model (l1_cache.c) -/

/-- C macro `L1_NUM_CACHE_ENTRIES (1<<11)` — the declared size of the
`l1_cache` array.  (The C file header says the cache has 2^10 lines.) -/
def L1_NUM_CACHE_ENTRIES : Nat := 1 <<< 11

/-- C struct `L1_CACHE_ENTRY`: packed status word `v_d_tag`
(v at bit 31, d at bit 30, tag in bits 0-15) plus the line data. -/
structure L1_CACHE_ENTRY where
  v_d_tag : Nat
  cache_line : CacheLine

/-- The C global `L1_CACHE_ENTRY l1_cache[L1_NUM_CACHE_ENTRIES]`,
embedded as a total map from the entry index. -/
abbrev L1Cache := Nat → L1_CACHE_ENTRY

def L1_VBIT_MASK : Nat := 0x1 <<< 31

def L1_DIRTYBIT_MASK : Nat := 0x1 <<< 30

def L1_ENTRY_TAG_MASK : Nat := 0xffff

def L1_ADDRESS_TAG_MASK : Nat := 0xffff <<< 16

def L1_ADDRESS_TAG_SHIFT : Nat := 16

def L1_ADDRESS_INDEX_MASK : Nat := 0x3ff <<< 6

def L1_ADDRESS_INDEX_SHIFT : Nat := 6

def L1_ADDRESS_WORD_OFFSET_MASK : Nat := 0xF <<< 2

def L1_ADDRESS_WORD_OFFSET_SHIFT : Nat := 2

/-- Index extraction in `l1_cache_access` / `l1_insert_line`. -/
def l1_entry_index (address : Nat) : Nat :=
  (address &&& L1_ADDRESS_INDEX_MASK) >>> L1_ADDRESS_INDEX_SHIFT

/-- Tag extraction in `l1_cache_access` / `l1_insert_line`. -/
def l1_addr_tag (address : Nat) : Nat :=
  (address &&& L1_ADDRESS_TAG_MASK) >>> L1_ADDRESS_TAG_SHIFT

/-- Word-offset extraction in `l1_cache_access`. -/
def l1_word_offset (address : Nat) : Nat :=
  (address &&& L1_ADDRESS_WORD_OFFSET_MASK) >>> L1_ADDRESS_WORD_OFFSET_SHIFT

/-- Procedure `l1_initialize()`: zero the `v_d_tag` of every entry (line data kept). -/
def l1_initialize (cache : L1Cache) : L1Cache :=
  fun entry => { cache entry with v_d_tag := 0 }

/-- The C miss test of `l1_cache_access`:
`((v_d_tag & L1_VBIT_MASK) == 0) || ((v_d_tag & L1_ENTRY_TAG_MASK) != tag)`. -/
def l1_miss (e : L1_CACHE_ENTRY) (tag : Nat) : Bool :=
  (e.v_d_tag &&& L1_VBIT_MASK == 0) || (e.v_d_tag &&& L1_ENTRY_TAG_MASK != tag)

/-- Procedure `l1_cache_access(address, write_data, control, *read_data, *status)`.
Returns the new `(l1_cache, read_data, status)`; `read_data` and `status`
are in-out, so their old values are arguments. -/
def l1_cache_access (cache : L1Cache) (address write_data control read_data status : Nat) :
    L1Cache × Nat × Nat :=
  let entry_index := l1_entry_index address
  let tag := l1_addr_tag address
  let word_offset := l1_word_offset address
  if l1_miss (cache entry_index) tag then
    -- cache miss: `*status &= ~(0x1)` (uint8), nothing else changes
    (cache, read_data, status &&& 0xFE)
  else
    -- cache hit: `*status |= 0x1`
    let status := status ||| 0x1
    let read_data :=
      if control &&& READ_ENABLE_MASK != 0 then
        (cache entry_index).cache_line word_offset
      else read_data
    let cache :=
      if control &&& WRITE_ENABLE_MASK != 0 then
        Function.update cache entry_index
          { v_d_tag := (cache entry_index).v_d_tag ||| L1_DIRTYBIT_MASK,
            cache_line :=
              Function.update (cache entry_index).cache_line word_offset write_data }
      else cache
    (cache, read_data, status)

/-- The status word written by `l1_insert_line`:
`v_d_tag = tag; v_d_tag &= ~L1_DIRTYBIT_MASK; v_d_tag |= L1_VBIT_MASK;`. -/
def l1_new_v_d_tag (tag : Nat) : Nat :=
  (tag &&& (UINT32_MAX ^^^ L1_DIRTYBIT_MASK)) ||| L1_VBIT_MASK

/-- Procedure `l1_insert_line(address, write_data, *evicted_writeback_address,
evicted_writeback_data, *status)`.  Returns the new
`(l1_cache, evicted_writeback_address, evicted_writeback_data, status)`.
Note the C write-back address shifts the whole `v_d_tag` (valid and dirty
bits included) without masking the tag out; the uint32 wrap of that shift
is embedded with an explicit `&&& UINT32_MAX`. -/
def l1_insert_line (cache : L1Cache) (address : Nat) (write_data : CacheLine)
    (evicted_writeback_address : Nat) (evicted_writeback_data : CacheLine)
    (status : Nat) : L1Cache × Nat × CacheLine × Nat :=
  let entry_index := l1_entry_index address
  let tag := l1_addr_tag address
  let e := cache entry_index
  let out :=
    if (e.v_d_tag &&& L1_VBIT_MASK != 0) && (e.v_d_tag &&& L1_DIRTYBIT_MASK != 0) then
      (((e.v_d_tag <<< L1_ADDRESS_TAG_SHIFT) &&& UINT32_MAX) |||
         (entry_index <<< L1_ADDRESS_INDEX_SHIFT),
       e.cache_line, status ||| 0x1)
    else
      (evicted_writeback_address, evicted_writeback_data, status &&& 0xFE)
  (Function.update cache entry_index
     { v_d_tag := l1_new_v_d_tag tag, cache_line := write_data },
   out)

/-! ### L2 cache data model (l2_cache.c) -/

def L2_LINES_PER_SET : Nat := 4

def L2_NUM_CACHE_SETS : Nat := 1 <<< 12

/-- C struct `L2_CACHE_ENTRY`: packed status word `v_r_d_tag`
(v at bit 31, r at bit 30, d at bit 29, tag in bits 0-13) plus line data. -/
structure L2_CACHE_ENTRY where
  v_r_d_tag : Nat
  cache_line : CacheLine

/-- One L2 set: C `L2_CACHE_ENTRY lines[L2_LINES_PER_SET]`, embedded as a
total map from the way index; ways 0..3 are the meaningful ones. -/
abbrev L2_CACHE_SET := Nat → L2_CACHE_ENTRY

/-- The C global `L2_CACHE_SET l2_cache[L2_NUM_CACHE_SETS]`. -/
abbrev L2Cache := Nat → L2_CACHE_SET

def L2_VBIT_MASK : Nat := 1 <<< 31

def L2_RBIT_MASK : Nat := 1 <<< 30

def L2_DIRTYBIT_MASK : Nat := 1 <<< 29

def L2_ENTRY_TAG_MASK : Nat := 0x3fff

def L2_ADDRESS_TAG_MASK : Nat := 0x3fff <<< 18

def L2_ADDRESS_TAG_SHIFT : Nat := 18

def L2_ADDRESS_INDEX_MASK : Nat := 0xfff <<< 6

def L2_ADDRESS_INDEX_SHIFT : Nat := 6

/-- Set-index extraction in `l2_cache_access` / `l2_insert_line`. -/
def l2_set_index (address : Nat) : Nat :=
  (address &&& L2_ADDRESS_INDEX_MASK) >>> L2_ADDRESS_INDEX_SHIFT

/-- Tag extraction in `l2_cache_access` / `l2_insert_line`. -/
def l2_addr_tag (address : Nat) : Nat :=
  (address &&& L2_ADDRESS_TAG_MASK) >>> L2_ADDRESS_TAG_SHIFT

/-- Procedure `l2_initialize()`: zero the `v_r_d_tag` of every entry. -/
def l2_initialize (cache : L2Cache) : L2Cache :=
  fun set => fun line => { cache set line with v_r_d_tag := 0 }

/-- Write entry `e` at way `line` of set `set` (the effect of the C code
assigning to `l2_cache[set].lines[line]`). -/
def updateL2 (cache : L2Cache) (set line : Nat) (e : L2_CACHE_ENTRY) : L2Cache :=
  Function.update cache set (Function.update (cache set) line e)

/-- The C hit test of the lookup loop in `l2_cache_access`:
`(v_r_d_tag & L2_VBIT_MASK) && ((v_r_d_tag & L2_ENTRY_TAG_MASK) == tag)`. -/
def l2_line_matches (e : L2_CACHE_ENTRY) (tag : Nat) : Bool :=
  (e.v_r_d_tag &&& L2_VBIT_MASK != 0) && (e.v_r_d_tag &&& L2_ENTRY_TAG_MASK == tag)

/-- The lookup loop of `l2_cache_access`: index of the first way (order
0..3) whose entry is valid with the matching tag, `none` on a miss
(C `line_index == -1`). -/
def l2_hit_line (s : L2_CACHE_SET) (tag : Nat) : Option Nat :=
  (List.range L2_LINES_PER_SET).find? fun line => l2_line_matches (s line) tag

/-- Procedure `l2_cache_access(address, write_data, control, read_data, *status)`.
Returns the new `(l2_cache, read_data, status)`.  On a hit the reference
bit is set first, then the read (of the current line) and the write (full
line replacement plus dirty bit) are performed as enabled. -/
def l2_cache_access (cache : L2Cache) (address : Nat) (write_data : CacheLine)
    (control : Nat) (read_data : CacheLine) (status : Nat) :
    L2Cache × CacheLine × Nat :=
  let set_index := l2_set_index address
  let tag := l2_addr_tag address
  match l2_hit_line (cache set_index) tag with
  | none =>
      -- cache miss: `*status &= ~(0x1)` (uint8), nothing else changes
      (cache, read_data, status &&& 0xFE)
  | some line_index =>
      let status := status ||| 0x1
      let e := cache set_index line_index
      let e := { e with v_r_d_tag := e.v_r_d_tag ||| L2_RBIT_MASK }
      let read_data :=
        if control &&& READ_ENABLE_MASK != 0 then e.cache_line else read_data
      let e :=
        if control &&& WRITE_ENABLE_MASK != 0 then
          { v_r_d_tag := e.v_r_d_tag ||| L2_DIRTYBIT_MASK, cache_line := write_data }
        else e
      (updateL2 cache set_index line_index e, read_data, status)

/-- C condition `!(v_r_d_tag & L2_VBIT_MASK)` of the victim-search loop. -/
def l2_way_invalid (e : L2_CACHE_ENTRY) : Bool :=
  e.v_r_d_tag &&& L2_VBIT_MASK == 0

/-- C condition `!(v_r_d_tag & L2_RBIT_MASK)` (reference bit clear). -/
def l2_way_r0 (e : L2_CACHE_ENTRY) : Bool :=
  e.v_r_d_tag &&& L2_RBIT_MASK == 0

/-- C condition `!(v_r_d_tag & L2_DIRTYBIT_MASK)` (dirty bit clear). -/
def l2_way_d0 (e : L2_CACHE_ENTRY) : Bool :=
  e.v_r_d_tag &&& L2_DIRTYBIT_MASK == 0

/-- The victim-search loop of `l2_insert_line`.  `Sum.inl line` is the
early-return path taken when way `line` has its valid bit clear;
`Sum.inr (r0_d0_index, r0_d1_index, r1_d0_index)` gives the final values of
the three tier registers (`none` embeds the `NOT_FOUND` sentinel).

The C source writes `if (r0_d0_index = NOT_FOUND) r0_d0_index = line;`
(and likewise for the other two registers): the condition is an
ASSIGNMENT, and `NOT_FOUND` is nonzero, so the guard is always true and the
register is overwritten by `line` on every match, not only on the first.
The embedding reproduces that behavior: each tier register ends up holding
the LAST matching way, although the comments in the C source say the first
matching way was intended. -/
def l2_scan (s : L2_CACHE_SET) :
    List Nat → Option Nat → Option Nat → Option Nat →
    Nat ⊕ (Option Nat × Option Nat × Option Nat)
  | [], r0_d0_index, r0_d1_index, r1_d0_index =>
      Sum.inr (r0_d0_index, r0_d1_index, r1_d0_index)
  | line :: rest, r0_d0_index, r0_d1_index, r1_d0_index =>
      if l2_way_invalid (s line) then
        Sum.inl line
      else if l2_way_r0 (s line) && l2_way_d0 (s line) then
        l2_scan s rest (some line) r0_d1_index r1_d0_index
      else if l2_way_r0 (s line) && !(l2_way_d0 (s line)) then
        l2_scan s rest r0_d0_index (some line) r1_d0_index
      else if !(l2_way_r0 (s line)) && l2_way_d0 (s line) then
        l2_scan s rest r0_d0_index r0_d1_index (some line)
      else
        l2_scan s rest r0_d0_index r0_d1_index r1_d0_index

/-- The post-loop victim choice of `l2_insert_line`: highest-preference
tier register that is not `NOT_FOUND`, way 0 as the final fallback. -/
def l2_select (r : Option Nat × Option Nat × Option Nat) : Nat :=
  match r.1 with
  | some i => i
  | none =>
    match r.2.1 with
    | some i => i
    | none =>
      match r.2.2 with
      | some i => i
      | none => 0

/-- The way of a set that `l2_insert_line` overwrites. -/
def l2_victim_way (s : L2_CACHE_SET) : Nat :=
  match l2_scan s (List.range L2_LINES_PER_SET) none none none with
  | Sum.inl line => line
  | Sum.inr r => l2_select r

/-- Whether `l2_insert_line` reports a write-back: never on the
early-return (invalid way) path, otherwise exactly when the chosen victim
has its dirty bit set. -/
def l2_victim_writeback (s : L2_CACHE_SET) : Bool :=
  match l2_scan s (List.range L2_LINES_PER_SET) none none none with
  | Sum.inl _ => false
  | Sum.inr r => !(l2_way_d0 (s (l2_select r)))

/-- The status-word update both paths of `l2_insert_line` apply to the
overwritten entry: `|= L2_VBIT_MASK; &= ~L2_DIRTYBIT_MASK;
&= ~L2_RBIT_MASK; &= ~L2_ENTRY_TAG_MASK; |= tag;`. -/
def l2_new_v_r_d_tag (x tag : Nat) : Nat :=
  ((((x ||| L2_VBIT_MASK) &&& (UINT32_MAX ^^^ L2_DIRTYBIT_MASK))
      &&& (UINT32_MAX ^^^ L2_RBIT_MASK))
     &&& (UINT32_MAX ^^^ L2_ENTRY_TAG_MASK)) ||| tag

/-- Procedure `l2_insert_line(address, write_data, *evicted_writeback_address,
evicted_writeback_data, *status)`.  Returns the new
`(l2_cache, evicted_writeback_address, evicted_writeback_data, status)`. -/
def l2_insert_line (cache : L2Cache) (address : Nat) (write_data : CacheLine)
    (evicted_writeback_address : Nat) (evicted_writeback_data : CacheLine)
    (status : Nat) : L2Cache × Nat × CacheLine × Nat :=
  let set_index := l2_set_index address
  let tag := l2_addr_tag address
  match l2_scan (cache set_index) (List.range L2_LINES_PER_SET) none none none with
  | Sum.inl line =>
      -- way `line` has its valid bit clear: fill it and return, no write-back
      (updateL2 cache set_index line
         { v_r_d_tag := l2_new_v_r_d_tag ((cache set_index line).v_r_d_tag) tag,
           cache_line := write_data },
       evicted_writeback_address, evicted_writeback_data, status &&& 0xFE)
  | Sum.inr r =>
      let line_index := l2_select r
      let old := cache set_index line_index
      let out :=
        if old.v_r_d_tag &&& L2_DIRTYBIT_MASK != 0 then
          (((old.v_r_d_tag &&& L2_ENTRY_TAG_MASK) <<< L2_ADDRESS_TAG_SHIFT) |||
             (set_index <<< L2_ADDRESS_INDEX_SHIFT),
           old.cache_line, status ||| 0x1)
        else
          (evicted_writeback_address, evicted_writeback_data, status &&& 0xFE)
      (updateL2 cache set_index line_index
         { v_r_d_tag := l2_new_v_r_d_tag old.v_r_d_tag tag,
           cache_line := write_data },
       out)

/-- Procedure `l2_clear_r_bits()`: clear the reference bit of every entry. -/
def l2_clear_r_bits (cache : L2Cache) : L2Cache :=
  fun set => fun line =>
    { cache set line with
      v_r_d_tag := (cache set line).v_r_d_tag &&& (UINT32_MAX ^^^ L2_RBIT_MASK) }

/-! ### Traces of L2 operations (for the reachability claims) -/

/-- One call to the mutating L2 interface. -/
inductive L2Op where
  | access (address : Nat) (write_data : CacheLine) (control : Nat)
  | insert (address : Nat) (write_data : CacheLine)
  | clearR

/-- The cache state after one call (out-parameter values irrelevant to the
resulting cache state are fixed arbitrarily). -/
def l2_step (cache : L2Cache) : L2Op → L2Cache
  | .access address write_data control =>
      (l2_cache_access cache address write_data control (fun _ => 0) 0).1
  | .insert address write_data =>
      (l2_insert_line cache address write_data 0 (fun _ => 0) 0).1
  | .clearR => l2_clear_r_bits cache

/-- The cache state after a sequence of calls. -/
def l2_run (cache : L2Cache) : List L2Op → L2Cache
  | [] => cache
  | op :: ops => l2_run (l2_step cache op) ops

/-- Within every set, at most one valid way (among ways 0..3) carries a
given tag. -/
def L2UniqueTags (cache : L2Cache) : Prop :=
  ∀ set i j, i < L2_LINES_PER_SET → j < L2_LINES_PER_SET → i ≠ j →
    (cache set i).v_r_d_tag &&& L2_VBIT_MASK ≠ 0 →
    (cache set j).v_r_d_tag &&& L2_VBIT_MASK ≠ 0 →
    (cache set i).v_r_d_tag &&& L2_ENTRY_TAG_MASK ≠
      (cache set j).v_r_d_tag &&& L2_ENTRY_TAG_MASK

/-- A trace in which every `insert` is issued only for an address that
misses in its set at the moment of the call (the usage discipline of the
memory-hierarchy orchestrator, which inserts only after a miss). -/
def L2FreshTrace : L2Cache → List L2Op → Prop
  | _, [] => True
  | cache, op :: ops =>
      (match op with
       | .insert address _ =>
           l2_hit_line (cache (l2_set_index address)) (l2_addr_tag address) = none
       | _ => True) ∧ L2FreshTrace (l2_step cache op) ops

/-- The all-invalid L2 cache state produced by `l2_initialize` (with zeroed
line data, matching a zero-initialized C global). -/
def l2_zero_cache : L2Cache :=
  fun _ => fun _ => { v_r_d_tag := 0, cache_line := fun _ => 0 }

/-- An all-invalid L1 cache state with zeroed line data. -/
def l1_zero_cache : L1Cache :=
  fun _ => { v_d_tag := 0, cache_line := fun _ => 0 }

/-! ### Bit-manipulation kit -/

theorem ne_zero_of_testBit {x : Nat} (i : Nat) (h : x.testBit i = true) : x ≠ 0 := by
  intro h0
  rw [h0, Nat.zero_testBit] at h
  exact Bool.false_ne_true h

theorem and_lor_of_and_eq_zero (a : Nat) {b m : Nat} (h : b &&& m = 0) :
    (a ||| b) &&& m = a &&& m := by
  apply Nat.eq_of_testBit_eq
  intro i
  have hb : (b &&& m).testBit i = false := by
    rw [h]
    exact Nat.zero_testBit i
  rw [Nat.testBit_and] at hb
  simp only [Nat.testBit_and, Nat.testBit_or]
  cases h1 : a.testBit i <;> cases h2 : b.testBit i <;> cases h3 : m.testBit i <;>
    simp_all

theorem and_and_of_and_eq (a : Nat) {b m : Nat} (h : b &&& m = m) :
    (a &&& b) &&& m = a &&& m := by
  rw [Nat.and_assoc, h]

theorem lor_and_self (a m : Nat) : (a ||| m) &&& m = m := by
  apply Nat.eq_of_testBit_eq
  intro i
  simp only [Nat.testBit_and, Nat.testBit_or]
  cases h1 : a.testBit i <;> cases h2 : m.testBit i <;> rfl

theorem lor_and_self_ne_zero (a : Nat) {m : Nat} (hm : m ≠ 0) :
    (a ||| m) &&& m ≠ 0 := by
  rw [lor_and_self]
  exact hm

theorem status_or_one_and_one (st : Nat) : (st ||| 0x1) &&& 0x1 ≠ 0 :=
  lor_and_self_ne_zero st (by decide)

theorem status_and_fe_and_one (st : Nat) : (st &&& 0xFE) &&& 0x1 = 0 := by
  rw [Nat.and_assoc]
  have h : (0xFE &&& 0x1 : Nat) = 0 := by decide
  rw [h]
  apply Nat.eq_of_testBit_eq
  intro i
  simp [Nat.testBit_and, Nat.zero_testBit]

/-! ### testBit values of the mask constants -/

theorem testBit_L1_VBIT (i : Nat) : L1_VBIT_MASK.testBit i = decide (31 = i) := by
  rw [(by decide : L1_VBIT_MASK = 2 ^ 31)]
  exact Nat.testBit_two_pow

theorem testBit_L1_DIRTY (i : Nat) : L1_DIRTYBIT_MASK.testBit i = decide (30 = i) := by
  rw [(by decide : L1_DIRTYBIT_MASK = 2 ^ 30)]
  exact Nat.testBit_two_pow

theorem testBit_L1_TAGMASK (i : Nat) : L1_ENTRY_TAG_MASK.testBit i = decide (i < 16) := by
  rw [(by decide : L1_ENTRY_TAG_MASK = 2 ^ 16 - 1)]
  exact Nat.testBit_two_pow_sub_one 16 i

theorem testBit_L2_VBIT (i : Nat) : L2_VBIT_MASK.testBit i = decide (31 = i) := by
  rw [(by decide : L2_VBIT_MASK = 2 ^ 31)]
  exact Nat.testBit_two_pow

theorem testBit_L2_RBIT (i : Nat) : L2_RBIT_MASK.testBit i = decide (30 = i) := by
  rw [(by decide : L2_RBIT_MASK = 2 ^ 30)]
  exact Nat.testBit_two_pow

theorem testBit_L2_DIRTY (i : Nat) : L2_DIRTYBIT_MASK.testBit i = decide (29 = i) := by
  rw [(by decide : L2_DIRTYBIT_MASK = 2 ^ 29)]
  exact Nat.testBit_two_pow

theorem testBit_L2_TAGMASK (i : Nat) : L2_ENTRY_TAG_MASK.testBit i = decide (i < 14) := by
  rw [(by decide : L2_ENTRY_TAG_MASK = 2 ^ 14 - 1)]
  exact Nat.testBit_two_pow_sub_one 14 i

theorem testBit_U32 (i : Nat) : UINT32_MAX.testBit i = decide (i < 32) := by
  rw [(by decide : UINT32_MAX = 2 ^ 32 - 1)]
  exact Nat.testBit_two_pow_sub_one 32 i

/-! ### Bounds on the decoded address fields -/

theorem l1_addr_tag_lt (address : Nat) : l1_addr_tag address < 2 ^ 16 := by
  have h1 : address &&& L1_ADDRESS_TAG_MASK ≤ L1_ADDRESS_TAG_MASK := Nat.and_le_right
  have h2 : l1_addr_tag address ≤ L1_ADDRESS_TAG_MASK >>> L1_ADDRESS_TAG_SHIFT := by
    rw [l1_addr_tag, Nat.shiftRight_eq_div_pow, Nat.shiftRight_eq_div_pow]
    exact Nat.div_le_div_right h1
  calc l1_addr_tag address ≤ L1_ADDRESS_TAG_MASK >>> L1_ADDRESS_TAG_SHIFT := h2
    _ < 2 ^ 16 := by decide

theorem l1_entry_index_lt (address : Nat) : l1_entry_index address < 1024 := by
  have h1 : address &&& L1_ADDRESS_INDEX_MASK ≤ L1_ADDRESS_INDEX_MASK := Nat.and_le_right
  have h2 : l1_entry_index address ≤ L1_ADDRESS_INDEX_MASK >>> L1_ADDRESS_INDEX_SHIFT := by
    rw [l1_entry_index, Nat.shiftRight_eq_div_pow, Nat.shiftRight_eq_div_pow]
    exact Nat.div_le_div_right h1
  calc l1_entry_index address ≤ L1_ADDRESS_INDEX_MASK >>> L1_ADDRESS_INDEX_SHIFT := h2
    _ < 1024 := by decide

theorem l2_addr_tag_lt (address : Nat) : l2_addr_tag address < 2 ^ 14 := by
  have h1 : address &&& L2_ADDRESS_TAG_MASK ≤ L2_ADDRESS_TAG_MASK := Nat.and_le_right
  have h2 : l2_addr_tag address ≤ L2_ADDRESS_TAG_MASK >>> L2_ADDRESS_TAG_SHIFT := by
    rw [l2_addr_tag, Nat.shiftRight_eq_div_pow, Nat.shiftRight_eq_div_pow]
    exact Nat.div_le_div_right h1
  calc l2_addr_tag address ≤ L2_ADDRESS_TAG_MASK >>> L2_ADDRESS_TAG_SHIFT := h2
    _ < 2 ^ 14 := by decide

/-! ### Field extraction from the freshly written status words -/

theorem l2_new_tag_eq (x t : Nat) (ht : t < 2 ^ 14) :
    l2_new_v_r_d_tag x t &&& L2_ENTRY_TAG_MASK = t := by
  apply Nat.eq_of_testBit_eq
  intro i
  simp only [l2_new_v_r_d_tag, Nat.testBit_and, Nat.testBit_or, Nat.testBit_xor,
    testBit_L2_VBIT, testBit_L2_RBIT, testBit_L2_DIRTY, testBit_L2_TAGMASK, testBit_U32]
  rcases Nat.lt_or_ge i 14 with h14 | h14
  · have h29 : ¬(29 = i) := by omega
    have h30 : ¬(30 = i) := by omega
    have h31 : ¬(31 = i) := by omega
    have h32 : i < 32 := by omega
    simp [h14, h29, h30, h31, h32]
  · have hmask : ¬(i < 14) := by omega
    have ht2 : t.testBit i = false :=
      Nat.testBit_lt_two_pow (lt_of_lt_of_le ht (Nat.pow_le_pow_right (by norm_num) h14))
    simp [hmask, ht2]

theorem l2_new_valid_eq (x t : Nat) (ht : t < 2 ^ 14) :
    l2_new_v_r_d_tag x t &&& L2_VBIT_MASK = L2_VBIT_MASK := by
  apply Nat.eq_of_testBit_eq
  intro i
  simp only [l2_new_v_r_d_tag, Nat.testBit_and, Nat.testBit_or, Nat.testBit_xor,
    testBit_L2_VBIT, testBit_L2_RBIT, testBit_L2_DIRTY, testBit_L2_TAGMASK, testBit_U32]
  by_cases h31 : 31 = i
  · have ht2 : t.testBit i = false := by
      rw [← h31]
      exact Nat.testBit_lt_two_pow (lt_of_lt_of_le ht (by norm_num))
    have h29 : ¬(29 = i) := by omega
    have h30 : ¬(30 = i) := by omega
    have h14 : ¬(i < 14) := by omega
    have h32 : i < 32 := by omega
    simp [h31, h29, h30, h14, h32, ht2]
  · simp [h31]

theorem l2_new_valid_ne_zero (x t : Nat) (ht : t < 2 ^ 14) :
    l2_new_v_r_d_tag x t &&& L2_VBIT_MASK ≠ 0 := by
  rw [l2_new_valid_eq x t ht]
  decide

theorem l1_new_tag_eq (t : Nat) (ht : t < 2 ^ 16) :
    l1_new_v_d_tag t &&& L1_ENTRY_TAG_MASK = t := by
  apply Nat.eq_of_testBit_eq
  intro i
  simp only [l1_new_v_d_tag, Nat.testBit_and, Nat.testBit_or, Nat.testBit_xor,
    testBit_L1_VBIT, testBit_L1_DIRTY, testBit_L1_TAGMASK, testBit_U32]
  rcases Nat.lt_or_ge i 16 with h16 | h16
  · have h30 : ¬(30 = i) := by omega
    have h31 : ¬(31 = i) := by omega
    have h32 : i < 32 := by omega
    simp [h16, h30, h31, h32]
  · have hmask : ¬(i < 16) := by omega
    have ht2 : t.testBit i = false :=
      Nat.testBit_lt_two_pow (lt_of_lt_of_le ht (Nat.pow_le_pow_right (by norm_num) h16))
    simp [hmask, ht2]

theorem l1_new_valid_eq (t : Nat) : l1_new_v_d_tag t &&& L1_VBIT_MASK = L1_VBIT_MASK :=
  lor_and_self _ _

theorem l1_new_valid_ne_zero (t : Nat) : l1_new_v_d_tag t &&& L1_VBIT_MASK ≠ 0 := by
  rw [l1_new_valid_eq]
  decide

/-- The write-back address computation of `l1_insert_line` applied to the
status word of a line that was inserted with tag `t` and then dirtied: the
unmasked shift of the whole `v_d_tag` pushes the valid and dirty bits past
bit 31, so the uint32 truncation leaves exactly `t <<< 16`. -/
theorem l1_wb_addr_eq (t : Nat) (ht : t < 2 ^ 16) :
    ((l1_new_v_d_tag t ||| L1_DIRTYBIT_MASK) <<< L1_ADDRESS_TAG_SHIFT) &&& UINT32_MAX =
      t <<< L1_ADDRESS_TAG_SHIFT := by
  apply Nat.eq_of_testBit_eq
  intro i
  simp only [l1_new_v_d_tag, L1_ADDRESS_TAG_SHIFT, Nat.testBit_and, Nat.testBit_or,
    Nat.testBit_xor, Nat.testBit_shiftLeft, testBit_L1_VBIT, testBit_L1_DIRTY,
    testBit_U32]
  rcases Nat.lt_or_ge i 16 with h16 | h16
  · have hge : ¬(i ≥ 16) := by omega
    simp [hge]
  · rcases Nat.lt_or_ge i 32 with h32 | h32
    · have hge : i ≥ 16 := h16
      have h30 : ¬(30 = i - 16) := by omega
      have h31 : ¬(31 = i - 16) := by omega
      have hlt : i - 16 < 32 := by omega
      simp [hge, h30, h31, h32, hlt]
    · have hU : ¬(i < 32) := by omega
      have ht2 : t.testBit (i - 16) = false :=
        Nat.testBit_lt_two_pow
          (lt_of_lt_of_le ht (Nat.pow_le_pow_right (by norm_num) (by omega)))
      simp [hU, ht2]

/-! ### Structure of the victim-search loop of l2_insert_line -/

theorem updateL2_self (cache : L2Cache) (s l : Nat) (e : L2_CACHE_ENTRY) :
    updateL2 cache s l e s l = e := by
  simp [updateL2]

theorem updateL2_ne_line (cache : L2Cache) (s l : Nat) (e : L2_CACHE_ENTRY)
    (i : Nat) (h : i ≠ l) : updateL2 cache s l e s i = cache s i := by
  simp [updateL2, h]

theorem updateL2_ne_set (cache : L2Cache) (s l : Nat) (e : L2_CACHE_ENTRY)
    (s2 i : Nat) (h : s2 ≠ s) : updateL2 cache s l e s2 i = cache s2 i := by
  simp [updateL2, h]

theorem l2_scan_inl_invalid (s : L2_CACHE_SET) :
    ∀ (l : List Nat) (a b c : Option Nat) (x : Nat),
      l2_scan s l a b c = Sum.inl x → l2_way_invalid (s x) = true := by
  intro l
  induction l with
  | nil =>
    intro a b c x h
    simp [l2_scan] at h
  | cons y rest ih =>
    intro a b c x h
    simp only [l2_scan] at h
    by_cases hinv : l2_way_invalid (s y) = true
    · rw [if_pos hinv] at h
      obtain rfl : y = x := by simpa using h
      exact hinv
    · rw [if_neg hinv] at h
      split_ifs at h <;> exact ih _ _ _ _ h

theorem l2_scan_inr_all_valid (s : L2_CACHE_SET) :
    ∀ (l : List Nat) (a b c : Option Nat) (r : Option Nat × Option Nat × Option Nat),
      l2_scan s l a b c = Sum.inr r → ∀ x ∈ l, l2_way_invalid (s x) = false := by
  intro l
  induction l with
  | nil =>
    intro a b c r _ x hx
    simp at hx
  | cons y rest ih =>
    intro a b c r h x hx
    simp only [l2_scan] at h
    by_cases hinv : l2_way_invalid (s y) = true
    · rw [if_pos hinv] at h
      simp at h
    · rw [if_neg hinv] at h
      rcases List.mem_cons.mp hx with rfl | hx2
      · exact Bool.not_eq_true _ ▸ (by simpa using hinv)
      · split_ifs at h <;> exact ih _ _ _ _ h x hx2

theorem l2_scan_bound (s : L2_CACHE_SET) (n : Nat) :
    ∀ (l : List Nat) (a b c : Option Nat),
      (∀ x ∈ l, x < n) →
      (∀ i, a = some i → i < n) →
      (∀ i, b = some i → i < n) →
      (∀ i, c = some i → i < n) →
      (match l2_scan s l a b c with
       | Sum.inl x => x < n
       | Sum.inr r =>
           (∀ i, r.1 = some i → i < n) ∧ (∀ i, r.2.1 = some i → i < n) ∧
             (∀ i, r.2.2 = some i → i < n)) := by
  intro l
  induction l with
  | nil =>
    intro a b c _ ha hb hc
    simpa [l2_scan] using ⟨ha, hb, hc⟩
  | cons y rest ih =>
    intro a b c hl ha hb hc
    have hy : y < n := hl y (List.mem_cons_self y rest)
    have hrest : ∀ x ∈ rest, x < n := fun x hx => hl x (List.mem_cons_of_mem y hx)
    simp only [l2_scan]
    split_ifs with h1 h2 h3 h4
    · exact hy
    · exact ih _ _ _ hrest (fun i hi => by cases hi; exact hy) hb hc
    · exact ih _ _ _ hrest ha (fun i hi => by cases hi; exact hy) hc
    · exact ih _ _ _ hrest ha hb (fun i hi => by cases hi; exact hy)
    · exact ih _ _ _ hrest ha hb hc

theorem l2_select_bound (r : Option Nat × Option Nat × Option Nat) (n : Nat)
    (hn : 0 < n)
    (h1 : ∀ i, r.1 = some i → i < n)
    (h2 : ∀ i, r.2.1 = some i → i < n)
    (h3 : ∀ i, r.2.2 = some i → i < n) : l2_select r < n := by
  rcases r with ⟨a, b, c⟩
  cases a with
  | some i => exact h1 i rfl
  | none =>
    cases b with
    | some i => exact h2 i rfl
    | none =>
      cases c with
      | some i => exact h3 i rfl
      | none => simpa [l2_select] using hn

theorem l2_victim_way_lt (s : L2_CACHE_SET) : l2_victim_way s < L2_LINES_PER_SET := by
  have hb := l2_scan_bound s 4 (List.range L2_LINES_PER_SET) none none none
    (fun x hx => by simpa [L2_LINES_PER_SET] using List.mem_range.mp hx)
    (fun i hi => by simp at hi) (fun i hi => by simp at hi) (fun i hi => by simp at hi)
  rw [l2_victim_way]
  rcases h : l2_scan s (List.range L2_LINES_PER_SET) none none none with x | r
  · rw [h] at hb
    exact hb
  · rw [h] at hb
    exact l2_select_bound r 4 (by norm_num) hb.1 hb.2.1 hb.2.2

theorem l2_victim_valid_of_inr (s : L2_CACHE_SET)
    (r : Option Nat × Option Nat × Option Nat)
    (h : l2_scan s (List.range L2_LINES_PER_SET) none none none = Sum.inr r) :
    (s (l2_select r)).v_r_d_tag &&& L2_VBIT_MASK ≠ 0 := by
  have hb := l2_scan_bound s 4 (List.range L2_LINES_PER_SET) none none none
    (fun x hx => by simpa [L2_LINES_PER_SET] using List.mem_range.mp hx)
    (fun i hi => by simp at hi) (fun i hi => by simp at hi) (fun i hi => by simp at hi)
  rw [h] at hb
  have hlt : l2_select r < 4 := l2_select_bound r 4 (by norm_num) hb.1 hb.2.1 hb.2.2
  have hval := l2_scan_inr_all_valid s _ _ _ _ _ h (l2_select r)
    (by simpa [L2_LINES_PER_SET] using List.mem_range.mpr hlt)
  simpa [l2_way_invalid] using hval

/-- Characterization of `l2_insert_line` in terms of the victim way and the
write-back condition. -/
theorem l2_insert_line_eq (cache : L2Cache) (address : Nat) (write_data : CacheLine)
    (ewa : Nat) (ewd : CacheLine) (st : Nat) :
    l2_insert_line cache address write_data ewa ewd st =
      (updateL2 cache (l2_set_index address)
         (l2_victim_way (cache (l2_set_index address)))
         { v_r_d_tag := l2_new_v_r_d_tag
             ((cache (l2_set_index address)
                 (l2_victim_way (cache (l2_set_index address)))).v_r_d_tag)
             (l2_addr_tag address),
           cache_line := write_data },
       if l2_victim_writeback (cache (l2_set_index address)) = true then
         (((cache (l2_set_index address)
              (l2_victim_way (cache (l2_set_index address)))).v_r_d_tag &&&
             L2_ENTRY_TAG_MASK) <<< L2_ADDRESS_TAG_SHIFT) |||
           (l2_set_index address <<< L2_ADDRESS_INDEX_SHIFT)
       else ewa,
       if l2_victim_writeback (cache (l2_set_index address)) = true then
         (cache (l2_set_index address)
            (l2_victim_way (cache (l2_set_index address)))).cache_line
       else ewd,
       if l2_victim_writeback (cache (l2_set_index address)) = true then st ||| 0x1
       else st &&& 0xFE) := by
  rw [l2_insert_line, l2_victim_way, l2_victim_writeback]
  rcases h : l2_scan (cache (l2_set_index address)) (List.range L2_LINES_PER_SET)
      none none none with x | r
  · simp
  · simp only []
    by_cases hd : (cache (l2_set_index address) (l2_select r)).v_r_d_tag &&&
        L2_DIRTYBIT_MASK = 0
    · simp [l2_way_d0, hd]
    · simp [l2_way_d0, hd]

/-- If `l2_insert_line` reports a write-back then the victim entry was valid
and dirty before the call, and conversely. -/
theorem l2_victim_writeback_iff (s : L2_CACHE_SET) :
    l2_victim_writeback s = true ↔
      ((s (l2_victim_way s)).v_r_d_tag &&& L2_VBIT_MASK ≠ 0 ∧
       (s (l2_victim_way s)).v_r_d_tag &&& L2_DIRTYBIT_MASK ≠ 0) := by
  rw [l2_victim_writeback, l2_victim_way]
  rcases h : l2_scan s (List.range L2_LINES_PER_SET) none none none with x | r
  · have hinv := l2_scan_inl_invalid s _ _ _ _ _ h
    simp only [l2_way_invalid, beq_iff_eq] at hinv
    simp [hinv]
  · have hval := l2_victim_valid_of_inr s r h
    simp [l2_way_d0, hval]

theorem find_first_unique {p : Nat → Bool} :
    ∀ (l : List Nat) (w : Nat), w ∈ l → p w = true →
      (∀ x ∈ l, x ≠ w → p x = false) → l.find? p = some w := by
  intro l
  induction l with
  | nil =>
    intro w hw
    simp at hw
  | cons y rest ih =>
    intro w hw hpw hothers
    by_cases hyw : y = w
    · subst hyw
      exact List.find?_cons_of_pos _ hpw
    · have hpy : p y = false := hothers y (List.mem_cons_self y rest) hyw
      rw [List.find?_cons_of_neg _ (by simp [hpy])]
      refine ih w ?_ hpw ?_
      · rcases List.mem_cons.mp hw with h | h
        · exact absurd h.symm hyw
        · exact h
      · intro x hx hxw
        exact hothers x (List.mem_cons_of_mem y hx) hxw

/-! ### Characterization of l2_cache_access -/

theorem l2_cache_access_eq (cache : L2Cache) (a : Nat) (wd : CacheLine)
    (ctrl : Nat) (rd : CacheLine) (st : Nat) :
    l2_cache_access cache a wd ctrl rd st =
      match l2_hit_line (cache (l2_set_index a)) (l2_addr_tag a) with
      | none => (cache, rd, st &&& 0xFE)
      | some line =>
          (updateL2 cache (l2_set_index a) line
             (if ctrl &&& WRITE_ENABLE_MASK != 0 then
                { v_r_d_tag := ((cache (l2_set_index a) line).v_r_d_tag |||
                    L2_RBIT_MASK) ||| L2_DIRTYBIT_MASK,
                  cache_line := wd }
              else
                { v_r_d_tag := (cache (l2_set_index a) line).v_r_d_tag ||| L2_RBIT_MASK,
                  cache_line := (cache (l2_set_index a) line).cache_line }),
           if ctrl &&& READ_ENABLE_MASK != 0 then
             (cache (l2_set_index a) line).cache_line
           else rd,
           st ||| 0x1) := by
  rw [l2_cache_access]

theorem l2_cache_access_state (cache : L2Cache) (a : Nat) (wd : CacheLine)
    (ctrl : Nat) (rd : CacheLine) (st : Nat) :
    (l2_cache_access cache a wd ctrl rd st).1 =
      match l2_hit_line (cache (l2_set_index a)) (l2_addr_tag a) with
      | none => cache
      | some line =>
          updateL2 cache (l2_set_index a) line
            (if ctrl &&& WRITE_ENABLE_MASK != 0 then
               { v_r_d_tag := ((cache (l2_set_index a) line).v_r_d_tag |||
                   L2_RBIT_MASK) ||| L2_DIRTYBIT_MASK,
                 cache_line := wd }
             else
               { v_r_d_tag := (cache (l2_set_index a) line).v_r_d_tag ||| L2_RBIT_MASK,
                 cache_line := (cache (l2_set_index a) line).cache_line }) := by
  rw [l2_cache_access_eq]
  rcases l2_hit_line (cache (l2_set_index a)) (l2_addr_tag a) with _ | line <;> rfl

theorem l2_cache_access_state_miss (cache : L2Cache) (a : Nat) (wd : CacheLine)
    (ctrl : Nat) (rd : CacheLine) (st : Nat)
    (hh : l2_hit_line (cache (l2_set_index a)) (l2_addr_tag a) = none) :
    (l2_cache_access cache a wd ctrl rd st).1 = cache := by
  rw [l2_cache_access_state, hh]

theorem l2_cache_access_state_hit (cache : L2Cache) (a : Nat) (wd : CacheLine)
    (ctrl : Nat) (rd : CacheLine) (st : Nat) (line : Nat)
    (hh : l2_hit_line (cache (l2_set_index a)) (l2_addr_tag a) = some line) :
    (l2_cache_access cache a wd ctrl rd st).1 =
      updateL2 cache (l2_set_index a) line
        (if ctrl &&& WRITE_ENABLE_MASK != 0 then
           { v_r_d_tag := ((cache (l2_set_index a) line).v_r_d_tag |||
               L2_RBIT_MASK) ||| L2_DIRTYBIT_MASK,
             cache_line := wd }
         else
           { v_r_d_tag := (cache (l2_set_index a) line).v_r_d_tag ||| L2_RBIT_MASK,
             cache_line := (cache (l2_set_index a) line).cache_line }) := by
  rw [l2_cache_access_state, hh]

/-! ### Projections of l2_insert_line -/

theorem l2_insert_line_state (cache : L2Cache) (a : Nat) (wd : CacheLine)
    (ewa : Nat) (ewd : CacheLine) (st : Nat) :
    (l2_insert_line cache a wd ewa ewd st).1 =
      updateL2 cache (l2_set_index a) (l2_victim_way (cache (l2_set_index a)))
        { v_r_d_tag := l2_new_v_r_d_tag
            ((cache (l2_set_index a)
                (l2_victim_way (cache (l2_set_index a)))).v_r_d_tag)
            (l2_addr_tag a),
          cache_line := wd } := by
  rw [l2_insert_line_eq]

theorem l2_insert_line_status (cache : L2Cache) (a : Nat) (wd : CacheLine)
    (ewa : Nat) (ewd : CacheLine) (st : Nat) :
    (l2_insert_line cache a wd ewa ewd st).2.2.2 =
      if l2_victim_writeback (cache (l2_set_index a)) = true then st ||| 0x1
      else st &&& 0xFE := by
  rw [l2_insert_line_eq]

theorem l2_insert_line_wbaddr (cache : L2Cache) (a : Nat) (wd : CacheLine)
    (ewa : Nat) (ewd : CacheLine) (st : Nat) :
    (l2_insert_line cache a wd ewa ewd st).2.1 =
      if l2_victim_writeback (cache (l2_set_index a)) = true then
        (((cache (l2_set_index a)
             (l2_victim_way (cache (l2_set_index a)))).v_r_d_tag &&&
            L2_ENTRY_TAG_MASK) <<< L2_ADDRESS_TAG_SHIFT) |||
          (l2_set_index a <<< L2_ADDRESS_INDEX_SHIFT)
      else ewa := by
  rw [l2_insert_line_eq]

theorem l2_insert_line_wbdata (cache : L2Cache) (a : Nat) (wd : CacheLine)
    (ewa : Nat) (ewd : CacheLine) (st : Nat) :
    (l2_insert_line cache a wd ewa ewd st).2.2.1 =
      if l2_victim_writeback (cache (l2_set_index a)) = true then
        (cache (l2_set_index a) (l2_victim_way (cache (l2_set_index a)))).cache_line
      else ewd := by
  rw [l2_insert_line_eq]

/-! ### Preservation of the tag-uniqueness invariant -/

theorem unique_update_vt (cache : L2Cache) (s0 l : Nat) (e : L2_CACHE_ENTRY)
    (hV : e.v_r_d_tag &&& L2_VBIT_MASK = (cache s0 l).v_r_d_tag &&& L2_VBIT_MASK)
    (hT : e.v_r_d_tag &&& L2_ENTRY_TAG_MASK =
      (cache s0 l).v_r_d_tag &&& L2_ENTRY_TAG_MASK)
    (h : L2UniqueTags cache) : L2UniqueTags (updateL2 cache s0 l e) := by
  intro s i j hi hj hij hvi hvj
  have key : ∀ k, (updateL2 cache s0 l e s k).v_r_d_tag &&& L2_VBIT_MASK =
      (cache s k).v_r_d_tag &&& L2_VBIT_MASK ∧
      (updateL2 cache s0 l e s k).v_r_d_tag &&& L2_ENTRY_TAG_MASK =
        (cache s k).v_r_d_tag &&& L2_ENTRY_TAG_MASK := by
    intro k
    by_cases hs : s = s0
    · subst hs
      by_cases hk : k = l
      · subst hk
        rw [updateL2_self]
        exact ⟨hV, hT⟩
      · rw [updateL2_ne_line _ _ _ _ _ hk]
        exact ⟨rfl, rfl⟩
    · rw [updateL2_ne_set _ _ _ _ _ _ hs]
      exact ⟨rfl, rfl⟩
  rw [(key i).1] at hvi
  rw [(key j).1] at hvj
  rw [(key i).2, (key j).2]
  exact h s i j hi hj hij hvi hvj

theorem l2_cache_access_preserves_unique (cache : L2Cache) (a : Nat) (wd : CacheLine)
    (ctrl : Nat) (rd : CacheLine) (st : Nat) (h : L2UniqueTags cache) :
    L2UniqueTags (l2_cache_access cache a wd ctrl rd st).1 := by
  rcases hh : l2_hit_line (cache (l2_set_index a)) (l2_addr_tag a) with _ | line
  · rw [l2_cache_access_state_miss _ _ _ _ _ _ hh]
    exact h
  · rw [l2_cache_access_state_hit _ _ _ _ _ _ _ hh]
    have hRV : L2_RBIT_MASK &&& L2_VBIT_MASK = 0 := by decide
    have hDV : L2_DIRTYBIT_MASK &&& L2_VBIT_MASK = 0 := by decide
    have hRT : L2_RBIT_MASK &&& L2_ENTRY_TAG_MASK = 0 := by decide
    have hDT : L2_DIRTYBIT_MASK &&& L2_ENTRY_TAG_MASK = 0 := by decide
    by_cases hw : (ctrl &&& WRITE_ENABLE_MASK != 0) = true
    · rw [if_pos hw]
      exact unique_update_vt cache _ line _
        (by rw [and_lor_of_and_eq_zero _ hDV, and_lor_of_and_eq_zero _ hRV])
        (by rw [and_lor_of_and_eq_zero _ hDT, and_lor_of_and_eq_zero _ hRT]) h
    · rw [if_neg hw]
      exact unique_update_vt cache _ line _
        (by rw [and_lor_of_and_eq_zero _ hRV])
        (by rw [and_lor_of_and_eq_zero _ hRT]) h

theorem l2_clear_r_bits_preserves_unique (cache : L2Cache) (h : L2UniqueTags cache) :
    L2UniqueTags (l2_clear_r_bits cache) := by
  intro s i j hi hj hij hvi hvj
  have hV : (UINT32_MAX ^^^ L2_RBIT_MASK) &&& L2_VBIT_MASK = L2_VBIT_MASK := by decide
  have hT : (UINT32_MAX ^^^ L2_RBIT_MASK) &&& L2_ENTRY_TAG_MASK = L2_ENTRY_TAG_MASK := by
    decide
  simp only [l2_clear_r_bits] at hvi hvj ⊢
  rw [and_and_of_and_eq _ hV] at hvi hvj
  rw [and_and_of_and_eq _ hT, and_and_of_and_eq _ hT]
  exact h s i j hi hj hij hvi hvj

theorem l2_insert_line_preserves_unique (cache : L2Cache) (a : Nat) (wd : CacheLine)
    (ewa : Nat) (ewd : CacheLine) (st : Nat)
    (hfresh : l2_hit_line (cache (l2_set_index a)) (l2_addr_tag a) = none)
    (h : L2UniqueTags cache) :
    L2UniqueTags (l2_insert_line cache a wd ewa ewd st).1 := by
  rw [l2_insert_line_state]
  have hfr : ∀ x, x < L2_LINES_PER_SET →
      l2_line_matches (cache (l2_set_index a) x) (l2_addr_tag a) = false := by
    intro x hx
    have hmem := List.find?_eq_none.mp hfresh x (List.mem_range.mpr hx)
    simpa using hmem
  have htag : l2_new_v_r_d_tag
      ((cache (l2_set_index a) (l2_victim_way (cache (l2_set_index a)))).v_r_d_tag)
      (l2_addr_tag a) &&& L2_ENTRY_TAG_MASK = l2_addr_tag a :=
    l2_new_tag_eq _ _ (l2_addr_tag_lt a)
  intro s i j hi hj hij hvi hvj
  by_cases hs : s = l2_set_index a
  · subst hs
    by_cases hiw : i = l2_victim_way (cache (l2_set_index a))
    · subst hiw
      have hjw : j ≠ l2_victim_way (cache (l2_set_index a)) := fun hjw => hij hjw.symm
      rw [updateL2_ne_line _ _ _ _ _ hjw] at hvj ⊢
      rw [updateL2_self] at hvi ⊢
      rw [htag]
      have hj4 := hfr j hj
      simp only [l2_line_matches, Bool.and_eq_false_iff, bne_eq_false_iff_eq,
        beq_eq_false_iff_ne, ne_eq] at hj4
      rcases hj4 with hj4 | hj4
      · exact absurd hj4 hvj
      · exact fun he => hj4 he.symm
    · by_cases hjw : j = l2_victim_way (cache (l2_set_index a))
      · subst hjw
        rw [updateL2_ne_line _ _ _ _ _ hiw] at hvi ⊢
        rw [updateL2_self] at hvj ⊢
        rw [htag]
        have hi4 := hfr i hi
        simp only [l2_line_matches, Bool.and_eq_false_iff, bne_eq_false_iff_eq,
          beq_eq_false_iff_ne, ne_eq] at hi4
        rcases hi4 with hi4 | hi4
        · exact absurd hi4 hvi
        · exact hi4
      · rw [updateL2_ne_line _ _ _ _ _ hiw] at hvi ⊢
        rw [updateL2_ne_line _ _ _ _ _ hjw] at hvj ⊢
        exact h _ i j hi hj hij hvi hvj
  · rw [updateL2_ne_set _ _ _ _ _ _ hs] at hvi hvj ⊢
    rw [updateL2_ne_set _ _ _ _ _ _ hs]
    exact h s i j hi hj hij hvi hvj

theorem l2_run_preserves_unique (ops : List L2Op) : ∀ (cache : L2Cache),
    L2UniqueTags cache → L2FreshTrace cache ops → L2UniqueTags (l2_run cache ops) := by
  induction ops with
  | nil =>
    intro cache h _
    exact h
  | cons op ops ih =>
    intro cache h hgood
    obtain ⟨hop, hrest⟩ := hgood
    rw [l2_run]
    refine ih _ ?_ hrest
    cases op with
    | access a wd ctrl => exact l2_cache_access_preserves_unique cache a wd ctrl _ _ h
    | insert a wd => exact l2_insert_line_preserves_unique cache a wd _ _ _ hop h
    | clearR => exact l2_clear_r_bits_preserves_unique cache h

/-! ### Branch lemmas for the L1 operations -/

theorem l1_cache_access_miss_eq (cache : L1Cache) (a w ctrl rd st : Nat)
    (hmiss : l1_miss (cache (l1_entry_index a)) (l1_addr_tag a) = true) :
    l1_cache_access cache a w ctrl rd st = (cache, rd, st &&& 0xFE) := by
  rw [l1_cache_access]
  simp [hmiss]

theorem l1_cache_access_hit_eq (cache : L1Cache) (a w ctrl rd st : Nat)
    (hmiss : l1_miss (cache (l1_entry_index a)) (l1_addr_tag a) = false) :
    l1_cache_access cache a w ctrl rd st =
      ((if ctrl &&& WRITE_ENABLE_MASK != 0 then
          Function.update cache (l1_entry_index a)
            { v_d_tag := (cache (l1_entry_index a)).v_d_tag ||| L1_DIRTYBIT_MASK,
              cache_line :=
                Function.update (cache (l1_entry_index a)).cache_line
                  (l1_word_offset a) w }
        else cache),
       (if ctrl &&& READ_ENABLE_MASK != 0 then
          (cache (l1_entry_index a)).cache_line (l1_word_offset a)
        else rd),
       st ||| 0x1) := by
  rw [l1_cache_access]
  simp [hmiss]

theorem l1_insert_line_state (cache : L1Cache) (a : Nat) (wd : CacheLine)
    (ewa : Nat) (ewd : CacheLine) (st : Nat) :
    (l1_insert_line cache a wd ewa ewd st).1 =
      Function.update cache (l1_entry_index a)
        { v_d_tag := l1_new_v_d_tag (l1_addr_tag a), cache_line := wd } := rfl

theorem l1_insert_line_wb_eq (cache : L1Cache) (a : Nat) (wd : CacheLine)
    (ewa : Nat) (ewd : CacheLine) (st : Nat)
    (hv : (cache (l1_entry_index a)).v_d_tag &&& L1_VBIT_MASK ≠ 0)
    (hd : (cache (l1_entry_index a)).v_d_tag &&& L1_DIRTYBIT_MASK ≠ 0) :
    l1_insert_line cache a wd ewa ewd st =
      (Function.update cache (l1_entry_index a)
         { v_d_tag := l1_new_v_d_tag (l1_addr_tag a), cache_line := wd },
       (((cache (l1_entry_index a)).v_d_tag <<< L1_ADDRESS_TAG_SHIFT) &&& UINT32_MAX) |||
         (l1_entry_index a <<< L1_ADDRESS_INDEX_SHIFT),
       (cache (l1_entry_index a)).cache_line,
       st ||| 0x1) := by
  rw [l1_insert_line]
  simp [hv, hd]

theorem l1_insert_line_nowb_eq (cache : L1Cache) (a : Nat) (wd : CacheLine)
    (ewa : Nat) (ewd : CacheLine) (st : Nat)
    (hnot : ¬((cache (l1_entry_index a)).v_d_tag &&& L1_VBIT_MASK ≠ 0 ∧
      (cache (l1_entry_index a)).v_d_tag &&& L1_DIRTYBIT_MASK ≠ 0)) :
    l1_insert_line cache a wd ewa ewd st =
      (Function.update cache (l1_entry_index a)
         { v_d_tag := l1_new_v_d_tag (l1_addr_tag a), cache_line := wd },
       ewa, ewd, st &&& 0xFE) := by
  rw [l1_insert_line]
  rcases Decidable.not_and_iff_or_not.mp hnot with hv | hd
  · simp at hv
    simp [hv]
  · simp at hd
    simp [hd]

/-! ### Claim C1 -/

/-- Claim C1: for an `l2_insert_line` call on a set with no invalid way, the
claim says the victim is the FIRST way (in way-order 0..3) of the
highest-priority NRU tier.  The code disagrees: because the victim-search
loop writes `if (r0_d0_index = NOT_FOUND)` — an assignment, not a
comparison — each tier register holds the LAST matching way.  Evaluated at a
full set whose four ways are all valid, unreferenced and clean
(tags 0,1,2,3), inserting a line with tag 5 overwrites way 3 and leaves
way 0 untouched, where the claim requires way 0 to be the victim. -/
theorem c1_victim_last_not_first :
    l2_victim_way ((fun _ => fun line =>
        { v_r_d_tag := L2_VBIT_MASK ||| line, cache_line := fun _ => 0 } : L2Cache) 0) =
      3 ∧
    ((l2_insert_line (fun _ => fun line =>
          { v_r_d_tag := L2_VBIT_MASK ||| line, cache_line := fun _ => 0 })
        (5 <<< 18) (fun _ => 99) 0 (fun _ => 0) 0).1 0 3).v_r_d_tag &&&
        L2_ENTRY_TAG_MASK = 5 ∧
    ((l2_insert_line (fun _ => fun line =>
          { v_r_d_tag := L2_VBIT_MASK ||| line, cache_line := fun _ => 0 })
        (5 <<< 18) (fun _ => 99) 0 (fun _ => 0) 0).1 0 0).v_r_d_tag =
      L2_VBIT_MASK ||| 0 := by
  exact ⟨by decide, by decide, by decide⟩

/-! ### Claim C2 -/

/-- Claim C2 as stated is false: from the all-invalid cache, the two-call
sequence insert(address 0), insert(address 0) — both legal calls of the
interface named by the claim — leaves ways 0 and 1 of set 0 both valid with
the same tag, violating the uniqueness invariant. -/
theorem c2_duplicate_tag_reachable :
    ¬ L2UniqueTags (l2_run l2_zero_cache
        [L2Op.insert 0 (fun _ => 7), L2Op.insert 0 (fun _ => 9)]) := by
  intro h
  exact (h 0 0 1 (by decide) (by decide) (by decide) (by decide) (by decide)) (by decide)

/-- Claim C2 (amended): within every L2 set, at most one valid entry carries
a given tag, in every state reachable from the initialized (all-invalid)
cache by a sequence of `l2_cache_access`, `l2_insert_line` and
`l2_clear_r_bits` calls in which every `l2_insert_line` is issued only for
an address that currently misses in its set (the usage discipline of the
surrounding hierarchy, which inserts only after a miss). -/
theorem c2_unique_tags_invariant (cache : L2Cache) (ops : List L2Op)
    (hinit : ∀ s i, i < L2_LINES_PER_SET →
      (cache s i).v_r_d_tag &&& L2_VBIT_MASK = 0)
    (hfresh : L2FreshTrace cache ops) :
    L2UniqueTags (l2_run cache ops) :=
  l2_run_preserves_unique ops cache
    (fun s i _ hi _ _ hvi _ => absurd (hinit s i hi) hvi) hfresh

/-- Witness for C2: a concrete four-call trace (insert, write hit, clear of
the reference bits, insert of a second tag into the same set) from the
all-invalid cache satisfies the hypotheses, and the theorem yields the
invariant for the resulting state. -/
theorem c2_unique_tags_invariant_witness :
    L2FreshTrace l2_zero_cache
        [L2Op.insert 0 (fun _ => 5), L2Op.access 0 (fun _ => 6) 2, L2Op.clearR,
          L2Op.insert (1 <<< 18) (fun _ => 7)] ∧
    L2UniqueTags (l2_run l2_zero_cache
        [L2Op.insert 0 (fun _ => 5), L2Op.access 0 (fun _ => 6) 2, L2Op.clearR,
          L2Op.insert (1 <<< 18) (fun _ => 7)]) := by
  have hfresh : L2FreshTrace l2_zero_cache
      [L2Op.insert 0 (fun _ => 5), L2Op.access 0 (fun _ => 6) 2, L2Op.clearR,
        L2Op.insert (1 <<< 18) (fun _ => 7)] :=
    ⟨by decide, trivial, trivial, by decide, trivial⟩
  exact ⟨hfresh,
    c2_unique_tags_invariant l2_zero_cache _ (fun s i _ => Nat.zero_and _) hfresh⟩

/-! ### Claim C3 -/

/-- Claim C3: the claim (and the C file header, which derives 2^10 lines
for a 64KB cache with a 10-bit index) says the L1 cache consists of exactly
1024 entries; the code instead declares `L1_NUM_CACHE_ENTRIES` as
`(1<<11) = 2048`.  The second half of the claim is true: the decoded index
is below 1024 for every address, so only the first 1024 entries of the
declared array are ever touched. -/
theorem c3_l1_entry_count :
    L1_NUM_CACHE_ENTRIES = 2048 ∧ L1_NUM_CACHE_ENTRIES ≠ 1024 ∧
      ∀ address : Nat, l1_entry_index address < 1024 := by
  exact ⟨by decide, by decide, l1_entry_index_lt⟩

/-! ### Claim C5 -/

/-- Claim C5: for both L1 and L2, `insertLine` reports a write-back (bit 0
of the status byte set to 1) iff the entry it overwrites — at L2, the
victim way — was valid and dirty before the call; in particular an invalid
way or a clean line never produces a write-back. -/
theorem c5_writeback_iff_valid_dirty :
    (∀ (cache : L1Cache) (address : Nat) (data : CacheLine) (ewa : Nat)
        (ewd : CacheLine) (st : Nat),
      (l1_insert_line cache address data ewa ewd st).2.2.2 &&& 0x1 ≠ 0 ↔
        ((cache (l1_entry_index address)).v_d_tag &&& L1_VBIT_MASK ≠ 0 ∧
         (cache (l1_entry_index address)).v_d_tag &&& L1_DIRTYBIT_MASK ≠ 0)) ∧
    (∀ (cache : L2Cache) (address : Nat) (data : CacheLine) (ewa : Nat)
        (ewd : CacheLine) (st : Nat),
      (l2_insert_line cache address data ewa ewd st).2.2.2 &&& 0x1 ≠ 0 ↔
        ((cache (l2_set_index address)
            (l2_victim_way (cache (l2_set_index address)))).v_r_d_tag &&&
            L2_VBIT_MASK ≠ 0 ∧
         (cache (l2_set_index address)
            (l2_victim_way (cache (l2_set_index address)))).v_r_d_tag &&&
            L2_DIRTYBIT_MASK ≠ 0)) := by
  constructor
  · intro cache address data ewa ewd st
    by_cases hv : (cache (l1_entry_index address)).v_d_tag &&& L1_VBIT_MASK ≠ 0
    · by_cases hd : (cache (l1_entry_index address)).v_d_tag &&& L1_DIRTYBIT_MASK ≠ 0
      · rw [l1_insert_line_wb_eq _ _ _ _ _ _ hv hd]
        exact iff_of_true (status_or_one_and_one st) ⟨hv, hd⟩
      · rw [l1_insert_line_nowb_eq _ _ _ _ _ _ (fun hand => hd hand.2)]
        exact iff_of_false (fun hne => hne (status_and_fe_and_one st))
          (fun hand => hd hand.2)
    · rw [l1_insert_line_nowb_eq _ _ _ _ _ _ (fun hand => hv hand.1)]
      exact iff_of_false (fun hne => hne (status_and_fe_and_one st))
        (fun hand => hv hand.1)
  · intro cache address data ewa ewd st
    rw [l2_insert_line_status, ← l2_victim_writeback_iff]
    by_cases hwb : l2_victim_writeback (cache (l2_set_index address)) = true
    · rw [if_pos hwb]
      exact iff_of_true (status_or_one_and_one st) hwb
    · rw [if_neg hwb]
      exact iff_of_false (fun hne => hne (status_and_fe_and_one st)) hwb

/-- Witness for C5 at concrete inputs: the all-invalid L1 entry produces no
write-back, and the all-valid-dirty L2 set produces one. -/
theorem c5_writeback_iff_valid_dirty_witness :
    ((l1_insert_line l1_zero_cache 0 (fun _ => 0) 3 (fun _ => 4) 0).2.2.2 &&& 0x1 ≠ 0 ↔
      ((l1_zero_cache (l1_entry_index 0)).v_d_tag &&& L1_VBIT_MASK ≠ 0 ∧
       (l1_zero_cache (l1_entry_index 0)).v_d_tag &&& L1_DIRTYBIT_MASK ≠ 0)) ∧
    ((l2_insert_line l2_zero_cache 0 (fun _ => 0) 3 (fun _ => 4) 0).2.2.2 &&& 0x1 ≠ 0 ↔
      ((l2_zero_cache (l2_set_index 0)
          (l2_victim_way (l2_zero_cache (l2_set_index 0)))).v_r_d_tag &&&
          L2_VBIT_MASK ≠ 0 ∧
       (l2_zero_cache (l2_set_index 0)
          (l2_victim_way (l2_zero_cache (l2_set_index 0)))).v_r_d_tag &&&
          L2_DIRTYBIT_MASK ≠ 0)) :=
  ⟨c5_writeback_iff_valid_dirty.1 l1_zero_cache 0 (fun _ => 0) 3 (fun _ => 4) 0,
   c5_writeback_iff_valid_dirty.2 l2_zero_cache 0 (fun _ => 0) 3 (fun _ => 4) 0⟩

/-! ### Claim C9 -/

/-- Claim C9: for both caches, an access that misses (no valid entry with
the matching tag at the decoded index or set) leaves the whole cache state
unchanged, leaves the read-data buffer unchanged, and reports hit = false
in bit 0 of the status byte. -/
theorem c9_miss_no_mutation :
    (∀ (cache : L1Cache) (address w ctrl rd st : Nat),
      l1_miss (cache (l1_entry_index address)) (l1_addr_tag address) = true →
        (l1_cache_access cache address w ctrl rd st).1 = cache ∧
        (l1_cache_access cache address w ctrl rd st).2.1 = rd ∧
        (l1_cache_access cache address w ctrl rd st).2.2 &&& 0x1 = 0) ∧
    (∀ (cache : L2Cache) (address : Nat) (wd : CacheLine) (ctrl : Nat)
        (rd : CacheLine) (st : Nat),
      l2_hit_line (cache (l2_set_index address)) (l2_addr_tag address) = none →
        (l2_cache_access cache address wd ctrl rd st).1 = cache ∧
        (l2_cache_access cache address wd ctrl rd st).2.1 = rd ∧
        (l2_cache_access cache address wd ctrl rd st).2.2 &&& 0x1 = 0) := by
  constructor
  · intro cache address w ctrl rd st hmiss
    rw [l1_cache_access_miss_eq _ _ _ _ _ _ hmiss]
    exact ⟨rfl, rfl, status_and_fe_and_one st⟩
  · intro cache address wd ctrl rd st hmiss
    have he := l2_cache_access_eq cache address wd ctrl rd st
    rw [hmiss] at he
    rw [he]
    exact ⟨rfl, rfl, status_and_fe_and_one st⟩

/-- Witness for C9: reading address 0 misses in both all-invalid caches and
mutates nothing. -/
theorem c9_miss_no_mutation_witness :
    (l1_miss (l1_zero_cache (l1_entry_index 0)) (l1_addr_tag 0) = true ∧
      (l1_cache_access l1_zero_cache 0 5 1 7 0).1 = l1_zero_cache ∧
      (l1_cache_access l1_zero_cache 0 5 1 7 0).2.1 = 7 ∧
      (l1_cache_access l1_zero_cache 0 5 1 7 0).2.2 &&& 0x1 = 0) ∧
    (l2_hit_line (l2_zero_cache (l2_set_index 0)) (l2_addr_tag 0) = none ∧
      (l2_cache_access l2_zero_cache 0 (fun _ => 5) 1 (fun _ => 7) 0).1 =
        l2_zero_cache ∧
      (l2_cache_access l2_zero_cache 0 (fun _ => 5) 1 (fun _ => 7) 0).2.1 =
        (fun _ => 7) ∧
      (l2_cache_access l2_zero_cache 0 (fun _ => 5) 1 (fun _ => 7) 0).2.2 &&& 0x1 = 0) :=
  ⟨⟨by decide, c9_miss_no_mutation.1 l1_zero_cache 0 5 1 7 0 (by decide)⟩,
   ⟨by decide, c9_miss_no_mutation.2 l2_zero_cache 0 (fun _ => 5) 1 (fun _ => 7) 0
      (by decide)⟩⟩

/-! ### Claim C10 -/

/-- Claim C10: for both `l1_insert_line` and `l2_insert_line`, whenever the
call reports no write-back (bit 0 of the status byte 0), the
`evicted_writeback_address` and `evicted_writeback_data` output parameters
keep exactly the values they held before the call. -/
theorem c10_no_writeback_outputs_untouched :
    (∀ (cache : L1Cache) (address : Nat) (data : CacheLine) (ewa : Nat)
        (ewd : CacheLine) (st : Nat),
      (l1_insert_line cache address data ewa ewd st).2.2.2 &&& 0x1 = 0 →
        (l1_insert_line cache address data ewa ewd st).2.1 = ewa ∧
        (l1_insert_line cache address data ewa ewd st).2.2.1 = ewd) ∧
    (∀ (cache : L2Cache) (address : Nat) (data : CacheLine) (ewa : Nat)
        (ewd : CacheLine) (st : Nat),
      (l2_insert_line cache address data ewa ewd st).2.2.2 &&& 0x1 = 0 →
        (l2_insert_line cache address data ewa ewd st).2.1 = ewa ∧
        (l2_insert_line cache address data ewa ewd st).2.2.1 = ewd) := by
  constructor
  · intro cache address data ewa ewd st h0
    by_cases hv : (cache (l1_entry_index address)).v_d_tag &&& L1_VBIT_MASK ≠ 0
    · by_cases hd : (cache (l1_entry_index address)).v_d_tag &&& L1_DIRTYBIT_MASK ≠ 0
      · rw [l1_insert_line_wb_eq _ _ _ _ _ _ hv hd] at h0
        exact absurd h0 (status_or_one_and_one st)
      · rw [l1_insert_line_nowb_eq _ _ _ _ _ _ (fun hand => hd hand.2)]
        exact ⟨rfl, rfl⟩
    · rw [l1_insert_line_nowb_eq _ _ _ _ _ _ (fun hand => hv hand.1)]
      exact ⟨rfl, rfl⟩
  · intro cache address data ewa ewd st h0
    rw [l2_insert_line_status] at h0
    rw [l2_insert_line_wbaddr, l2_insert_line_wbdata]
    by_cases hwb : l2_victim_writeback (cache (l2_set_index address)) = true
    · rw [if_pos hwb] at h0
      exact absurd h0 (status_or_one_and_one st)
    · rw [if_neg hwb, if_neg hwb]
      exact ⟨rfl, rfl⟩

/-- Witness for C10: inserting into the all-invalid caches reports no
write-back and leaves the out-parameters at their prior values. -/
theorem c10_no_writeback_outputs_untouched_witness :
    ((l1_insert_line l1_zero_cache 0 (fun _ => 1) 11 (fun _ => 12) 0).2.2.2 &&& 0x1 = 0 ∧
      (l1_insert_line l1_zero_cache 0 (fun _ => 1) 11 (fun _ => 12) 0).2.1 = 11 ∧
      (l1_insert_line l1_zero_cache 0 (fun _ => 1) 11 (fun _ => 12) 0).2.2.1 =
        (fun _ => 12)) ∧
    ((l2_insert_line l2_zero_cache 0 (fun _ => 1) 11 (fun _ => 12) 0).2.2.2 &&& 0x1 = 0 ∧
      (l2_insert_line l2_zero_cache 0 (fun _ => 1) 11 (fun _ => 12) 0).2.1 = 11 ∧
      (l2_insert_line l2_zero_cache 0 (fun _ => 1) 11 (fun _ => 12) 0).2.2.1 =
        (fun _ => 12)) :=
  ⟨⟨by decide,
    c10_no_writeback_outputs_untouched.1 l1_zero_cache 0 (fun _ => 1) 11 (fun _ => 12) 0
      (by decide)⟩,
   ⟨by decide,
    c10_no_writeback_outputs_untouched.2 l2_zero_cache 0 (fun _ => 1) 11 (fun _ => 12) 0
      (by decide)⟩⟩

/-! ### Further projections for hits -/

theorem l2_cache_access_status_hit (cache : L2Cache) (a : Nat) (wd : CacheLine)
    (ctrl : Nat) (rd : CacheLine) (st : Nat) (line : Nat)
    (hh : l2_hit_line (cache (l2_set_index a)) (l2_addr_tag a) = some line) :
    (l2_cache_access cache a wd ctrl rd st).2.2 = st ||| 0x1 := by
  rw [l2_cache_access_eq, hh]

theorem l2_cache_access_read_hit (cache : L2Cache) (a : Nat) (wd : CacheLine)
    (ctrl : Nat) (rd : CacheLine) (st : Nat) (line : Nat)
    (hh : l2_hit_line (cache (l2_set_index a)) (l2_addr_tag a) = some line) :
    (l2_cache_access cache a wd ctrl rd st).2.1 =
      if ctrl &&& READ_ENABLE_MASK != 0 then
        (cache (l2_set_index a) line).cache_line
      else rd := by
  rw [l2_cache_access_eq, hh]

theorem l1_cache_access_state_hit (cache : L1Cache) (a w ctrl rd st : Nat)
    (hmiss : l1_miss (cache (l1_entry_index a)) (l1_addr_tag a) = false) :
    (l1_cache_access cache a w ctrl rd st).1 =
      if ctrl &&& WRITE_ENABLE_MASK != 0 then
        Function.update cache (l1_entry_index a)
          { v_d_tag := (cache (l1_entry_index a)).v_d_tag ||| L1_DIRTYBIT_MASK,
            cache_line :=
              Function.update (cache (l1_entry_index a)).cache_line
                (l1_word_offset a) w }
      else cache := by
  rw [l1_cache_access_hit_eq _ _ _ _ _ _ hmiss]

theorem l1_cache_access_read_hit (cache : L1Cache) (a w ctrl rd st : Nat)
    (hmiss : l1_miss (cache (l1_entry_index a)) (l1_addr_tag a) = false) :
    (l1_cache_access cache a w ctrl rd st).2.1 =
      if ctrl &&& READ_ENABLE_MASK != 0 then
        (cache (l1_entry_index a)).cache_line (l1_word_offset a)
      else rd := by
  rw [l1_cache_access_hit_eq _ _ _ _ _ _ hmiss]

theorem l1_cache_access_status_hit (cache : L1Cache) (a w ctrl rd st : Nat)
    (hmiss : l1_miss (cache (l1_entry_index a)) (l1_addr_tag a) = false) :
    (l1_cache_access cache a w ctrl rd st).2.2 = st ||| 0x1 := by
  rw [l1_cache_access_hit_eq _ _ _ _ _ _ hmiss]

/-! ### Claim C8 -/

/-- Claim C8: every `l2_cache_access` that hits sets the matched way
reference bit, for every value of the control byte (both enables 0
included), and reports the hit; when the write-enable bit is set the full
line is replaced by `write_data` and the dirty bit is set. -/
theorem c8_hit_sets_reference_bit (cache : L2Cache) (address : Nat) (wd : CacheLine)
    (ctrl : Nat) (rd : CacheLine) (st : Nat) (line : Nat)
    (hhit : l2_hit_line (cache (l2_set_index address)) (l2_addr_tag address) =
      some line) :
    ((l2_cache_access cache address wd ctrl rd st).1 (l2_set_index address)
        line).v_r_d_tag &&& L2_RBIT_MASK ≠ 0 ∧
    (l2_cache_access cache address wd ctrl rd st).2.2 &&& 0x1 ≠ 0 ∧
    (ctrl &&& WRITE_ENABLE_MASK ≠ 0 →
      ((l2_cache_access cache address wd ctrl rd st).1 (l2_set_index address)
          line).cache_line = wd ∧
      ((l2_cache_access cache address wd ctrl rd st).1 (l2_set_index address)
          line).v_r_d_tag &&& L2_DIRTYBIT_MASK ≠ 0) := by
  have hDR : L2_DIRTYBIT_MASK &&& L2_RBIT_MASK = 0 := by decide
  rw [l2_cache_access_state_hit cache address wd ctrl rd st line hhit,
    l2_cache_access_status_hit cache address wd ctrl rd st line hhit, updateL2_self]
  refine ⟨?_, status_or_one_and_one st, ?_⟩
  · by_cases hw : (ctrl &&& WRITE_ENABLE_MASK != 0) = true
    · rw [if_pos hw]
      have hgoal : (((cache (l2_set_index address) line).v_r_d_tag |||
          L2_RBIT_MASK) ||| L2_DIRTYBIT_MASK) &&& L2_RBIT_MASK ≠ 0 := by
        rw [and_lor_of_and_eq_zero _ hDR]
        exact lor_and_self_ne_zero _ (by decide)
      exact hgoal
    · rw [if_neg hw]
      exact lor_and_self_ne_zero _ (by decide)
  · intro hwprop
    have hw : (ctrl &&& WRITE_ENABLE_MASK != 0) = true := bne_iff_ne.mpr hwprop
    rw [if_pos hw]
    exact ⟨rfl, lor_and_self_ne_zero _ (by decide)⟩

/-- Witness for C8: an all-valid tag-0 cache is hit at way 0 by address 0
with control byte 0, and the reference bit of way 0 is set afterwards. -/
theorem c8_hit_sets_reference_bit_witness :
    l2_hit_line (((fun _ => fun _ =>
        { v_r_d_tag := L2_VBIT_MASK, cache_line := fun _ => 0 }) : L2Cache)
        (l2_set_index 0)) (l2_addr_tag 0) = some 0 ∧
    ((l2_cache_access (fun _ => fun _ =>
        { v_r_d_tag := L2_VBIT_MASK, cache_line := fun _ => 0 })
        0 (fun _ => 9) 0 (fun _ => 0) 0).1 (l2_set_index 0) 0).v_r_d_tag &&&
      L2_RBIT_MASK ≠ 0 :=
  ⟨by decide,
   (c8_hit_sets_reference_bit (fun _ => fun _ =>
       { v_r_d_tag := L2_VBIT_MASK, cache_line := fun _ => 0 })
     0 (fun _ => 9) 0 (fun _ => 0) 0 0 (by decide)).1⟩

/-! ### Claim C4 -/

/-- Hit test of `l1_cache_access` against a freshly inserted entry with the
same tag: the miss condition evaluates to false. -/
theorem l1_miss_new_false (t : Nat) (ht : t < 2 ^ 16) (data : CacheLine) :
    l1_miss { v_d_tag := l1_new_v_d_tag t, cache_line := data } t = false := by
  simp [l1_miss, l1_new_valid_eq, l1_new_tag_eq t ht,
    (by decide : L1_VBIT_MASK = 0 ↔ False)]

/-- Claim C4: insert a line at `addressA`, dirty it through a write hit at
`addressW` (same index and tag), then evict it by inserting at a colliding
`addressB` (same index, different tag): the reported write-back address is
`(tag of addressA <<< 16) ||| (index <<< 6)` — the original line address —
and the write-back data is the line content including the written word. -/
theorem c4_l1_dirty_writeback_roundtrip (cache : L1Cache)
    (addressA addressW addressB : Nat) (data dataB : CacheLine)
    (w ctrl ewa0 st0 rd1 st1 ewa2 st2 : Nat) (ewd0 ewd2 : CacheLine)
    (hWidx : l1_entry_index addressW = l1_entry_index addressA)
    (hWtag : l1_addr_tag addressW = l1_addr_tag addressA)
    (hBidx : l1_entry_index addressB = l1_entry_index addressA)
    (hBtag : l1_addr_tag addressB ≠ l1_addr_tag addressA)
    (hctrl : ctrl &&& WRITE_ENABLE_MASK ≠ 0) :
    (l1_insert_line
        (l1_cache_access (l1_insert_line cache addressA data ewa0 ewd0 st0).1
           addressW w ctrl rd1 st1).1
        addressB dataB ewa2 ewd2 st2).2.1 =
      (l1_addr_tag addressA <<< L1_ADDRESS_TAG_SHIFT) |||
        (l1_entry_index addressA <<< L1_ADDRESS_INDEX_SHIFT) ∧
    (l1_insert_line
        (l1_cache_access (l1_insert_line cache addressA data ewa0 ewd0 st0).1
           addressW w ctrl rd1 st1).1
        addressB dataB ewa2 ewd2 st2).2.2.1 =
      Function.update data (l1_word_offset addressW) w ∧
    (l1_insert_line
        (l1_cache_access (l1_insert_line cache addressA data ewa0 ewd0 st0).1
           addressW w ctrl rd1 st1).1
        addressB dataB ewa2 ewd2 st2).2.2.2 &&& 0x1 ≠ 0 := by
  have htA : l1_addr_tag addressA < 2 ^ 16 := l1_addr_tag_lt addressA
  have hs1e : (l1_insert_line cache addressA data ewa0 ewd0 st0).1
      (l1_entry_index addressA) =
      { v_d_tag := l1_new_v_d_tag (l1_addr_tag addressA), cache_line := data } := by
    rw [l1_insert_line_state, Function.update_same]
  have hmiss : l1_miss ((l1_insert_line cache addressA data ewa0 ewd0 st0).1
      (l1_entry_index addressW)) (l1_addr_tag addressW) = false := by
    rw [hWidx, hWtag, hs1e]
    exact l1_miss_new_false _ htA data
  have hw : (ctrl &&& WRITE_ENABLE_MASK != 0) = true := bne_iff_ne.mpr hctrl
  have hs2e : (l1_cache_access (l1_insert_line cache addressA data ewa0 ewd0 st0).1
      addressW w ctrl rd1 st1).1 (l1_entry_index addressA) =
      { v_d_tag := l1_new_v_d_tag (l1_addr_tag addressA) ||| L1_DIRTYBIT_MASK,
        cache_line := Function.update data (l1_word_offset addressW) w } := by
    rw [l1_cache_access_state_hit _ _ _ _ _ _ hmiss, if_pos hw, hWidx,
      Function.update_same, hs1e]
  have hDV : L1_DIRTYBIT_MASK &&& L1_VBIT_MASK = 0 := by decide
  have hv : ((l1_cache_access (l1_insert_line cache addressA data ewa0 ewd0 st0).1
      addressW w ctrl rd1 st1).1 (l1_entry_index addressB)).v_d_tag &&&
      L1_VBIT_MASK ≠ 0 := by
    rw [hBidx, hs2e]
    have hgoal : (l1_new_v_d_tag (l1_addr_tag addressA) ||| L1_DIRTYBIT_MASK) &&&
        L1_VBIT_MASK ≠ 0 := by
      rw [and_lor_of_and_eq_zero _ hDV]
      exact l1_new_valid_ne_zero _
    exact hgoal
  have hd : ((l1_cache_access (l1_insert_line cache addressA data ewa0 ewd0 st0).1
      addressW w ctrl rd1 st1).1 (l1_entry_index addressB)).v_d_tag &&&
      L1_DIRTYBIT_MASK ≠ 0 := by
    rw [hBidx, hs2e]
    exact lor_and_self_ne_zero _ (by decide)
  rw [l1_insert_line_wb_eq _ _ _ _ _ _ hv hd]
  refine ⟨?_, ?_, status_or_one_and_one st2⟩
  · show (((l1_cache_access (l1_insert_line cache addressA data ewa0 ewd0 st0).1
        addressW w ctrl rd1 st1).1 (l1_entry_index addressB)).v_d_tag <<<
        L1_ADDRESS_TAG_SHIFT &&& UINT32_MAX) |||
        (l1_entry_index addressB <<< L1_ADDRESS_INDEX_SHIFT) = _
    rw [hBidx, hs2e]
    rw [l1_wb_addr_eq _ htA]
  · show ((l1_cache_access (l1_insert_line cache addressA data ewa0 ewd0 st0).1
        addressW w ctrl rd1 st1).1 (l1_entry_index addressB)).cache_line = _
    rw [hBidx, hs2e]

/-- Witness for C4 at concrete addresses: tag 1 and index 2 for the line,
word offset 3 written, evicting tag 5 at the same index. -/
theorem c4_l1_dirty_writeback_roundtrip_witness :
    l1_entry_index ((1 <<< 16) ||| (2 <<< 6) ||| (3 <<< 2)) =
      l1_entry_index ((1 <<< 16) ||| (2 <<< 6)) ∧
    l1_addr_tag ((5 <<< 16) ||| (2 <<< 6)) ≠ l1_addr_tag ((1 <<< 16) ||| (2 <<< 6)) ∧
    (l1_insert_line
        (l1_cache_access
           (l1_insert_line l1_zero_cache ((1 <<< 16) ||| (2 <<< 6)) (fun i => 100 + i)
              0 (fun _ => 0) 0).1
           ((1 <<< 16) ||| (2 <<< 6) ||| (3 <<< 2)) 777 WRITE_ENABLE_MASK 0 0).1
        ((5 <<< 16) ||| (2 <<< 6)) (fun _ => 0) 0 (fun _ => 0) 0).2.1 =
      (l1_addr_tag ((1 <<< 16) ||| (2 <<< 6)) <<< L1_ADDRESS_TAG_SHIFT) |||
        (l1_entry_index ((1 <<< 16) ||| (2 <<< 6)) <<< L1_ADDRESS_INDEX_SHIFT) :=
  ⟨by decide, by decide,
   (c4_l1_dirty_writeback_roundtrip l1_zero_cache ((1 <<< 16) ||| (2 <<< 6))
      ((1 <<< 16) ||| (2 <<< 6) ||| (3 <<< 2)) ((5 <<< 16) ||| (2 <<< 6))
      (fun i => 100 + i) (fun _ => 0) 777 WRITE_ENABLE_MASK 0 0 0 0 0 0
      (fun _ => 0) (fun _ => 0) (by decide) (by decide) (by decide) (by decide)
      (by decide)).1⟩

/-! ### Claim C6 -/

theorem updateL2_set_self (cache : L2Cache) (s l : Nat) (e : L2_CACHE_ENTRY) :
    updateL2 cache s l e s = Function.update (cache s) l e := by
  simp [updateL2]

/-- Claim C6 as stated is false at L2: from the all-invalid cache, insert
address 0 with line 7 (way 0), insert address 0 again with line 9 (way 1 —
the code never checks whether the tag is already resident), then read
address 0: the access hits way 0 first and returns 7, not the just-inserted
line 9. -/
theorem c6_roundtrip_counterexample :
    (l2_cache_access
        (l2_insert_line
           (l2_insert_line l2_zero_cache 0 (fun _ => 7) 0 (fun _ => 0) 0).1
           0 (fun _ => 9) 0 (fun _ => 0) 0).1
        0 (fun _ => 0) READ_ENABLE_MASK (fun _ => 0) 0).2.1 0 = 7 ∧ (7 : Nat) ≠ 9 := by
  exact ⟨by decide, by decide⟩

/-- Claim C6 (amended): `insertLine(addr, data)` immediately followed by
`access(addr, readEnable)` hits and returns the inserted data — at L1
unconditionally (the word selected by the word offset of the address); at
L2 provided no valid way of the set already carries the tag of `addr`
before the insert (which holds whenever insertLine is called after a miss,
the usage discipline of the hierarchy). -/
theorem c6_insert_then_access_roundtrip :
    (∀ (cache : L1Cache) (address : Nat) (data : CacheLine)
        (ewa st rd1 st1 : Nat) (ewd : CacheLine),
      (l1_cache_access (l1_insert_line cache address data ewa ewd st).1 address 0
          READ_ENABLE_MASK rd1 st1).2.1 = data (l1_word_offset address) ∧
      (l1_cache_access (l1_insert_line cache address data ewa ewd st).1 address 0
          READ_ENABLE_MASK rd1 st1).2.2 &&& 0x1 ≠ 0) ∧
    (∀ (cache : L2Cache) (address : Nat) (data : CacheLine) (ewa : Nat)
        (ewd : CacheLine) (st : Nat) (rd1 : CacheLine) (st1 : Nat),
      l2_hit_line (cache (l2_set_index address)) (l2_addr_tag address) = none →
        (l2_cache_access (l2_insert_line cache address data ewa ewd st).1 address
            (fun _ => 0) READ_ENABLE_MASK rd1 st1).2.1 = data ∧
        (l2_cache_access (l2_insert_line cache address data ewa ewd st).1 address
            (fun _ => 0) READ_ENABLE_MASK rd1 st1).2.2 &&& 0x1 ≠ 0) := by
  constructor
  · intro cache address data ewa st rd1 st1 ewd
    have hs1e : (l1_insert_line cache address data ewa ewd st).1
        (l1_entry_index address) =
        { v_d_tag := l1_new_v_d_tag (l1_addr_tag address), cache_line := data } := by
      rw [l1_insert_line_state, Function.update_same]
    have hmiss : l1_miss ((l1_insert_line cache address data ewa ewd st).1
        (l1_entry_index address)) (l1_addr_tag address) = false := by
      rw [hs1e]
      exact l1_miss_new_false _ (l1_addr_tag_lt address) data
    constructor
    · rw [l1_cache_access_read_hit _ _ _ _ _ _ hmiss,
        if_pos (by decide : ((READ_ENABLE_MASK &&& READ_ENABLE_MASK != 0) = true)),
        hs1e]
    · rw [l1_cache_access_status_hit _ _ _ _ _ _ hmiss]
      exact status_or_one_and_one st1
  · intro cache address data ewa ewd st rd1 st1 hfresh
    have hvlt : l2_victim_way (cache (l2_set_index address)) < L2_LINES_PER_SET :=
      l2_victim_way_lt _
    have hset : (l2_insert_line cache address data ewa ewd st).1
        (l2_set_index address) =
        Function.update (cache (l2_set_index address))
          (l2_victim_way (cache (l2_set_index address)))
          { v_r_d_tag := l2_new_v_r_d_tag
              ((cache (l2_set_index address)
                  (l2_victim_way (cache (l2_set_index address)))).v_r_d_tag)
              (l2_addr_tag address),
            cache_line := data } := by
      rw [l2_insert_line_state, updateL2_set_self]
    have hhit : l2_hit_line ((l2_insert_line cache address data ewa ewd st).1
        (l2_set_index address)) (l2_addr_tag address) =
        some (l2_victim_way (cache (l2_set_index address))) := by
      rw [hset, l2_hit_line]
      apply find_first_unique
      · exact List.mem_range.mpr hvlt
      · rw [Function.update_same]
        simp [l2_line_matches, l2_new_valid_eq _ _ (l2_addr_tag_lt address),
          l2_new_tag_eq _ _ (l2_addr_tag_lt address),
          (by decide : L2_VBIT_MASK = 0 ↔ False)]
      · intro x hx hxw
        rw [Function.update_noteq hxw]
        have hmem := List.find?_eq_none.mp hfresh x hx
        simpa using hmem
    constructor
    · rw [l2_cache_access_read_hit _ _ _ _ _ _ _ hhit,
        if_pos (by decide : ((READ_ENABLE_MASK &&& READ_ENABLE_MASK != 0) = true)),
        hset, Function.update_same]
    · rw [l2_cache_access_status_hit _ _ _ _ _ _ _ hhit]
      exact status_or_one_and_one st1

/-- Witness for C6: inserting address 0 into the all-invalid L2 cache and
reading it back returns the inserted line. -/
theorem c6_insert_then_access_roundtrip_witness :
    l2_hit_line (l2_zero_cache (l2_set_index 0)) (l2_addr_tag 0) = none ∧
    (l2_cache_access (l2_insert_line l2_zero_cache 0 (fun _ => 42) 0 (fun _ => 0) 0).1
        0 (fun _ => 0) READ_ENABLE_MASK (fun _ => 1) 0).2.1 = (fun _ => 42) ∧
    (l1_cache_access (l1_insert_line l1_zero_cache 0 (fun i => 50 + i) 0 (fun _ => 0) 0).1
        0 0 READ_ENABLE_MASK 1 0).2.1 = (fun i => (50 : Nat) + i) (l1_word_offset 0) :=
  ⟨by decide,
   (c6_insert_then_access_roundtrip.2 l2_zero_cache 0 (fun _ => 42) 0 (fun _ => 0) 0
      (fun _ => 1) 0 (by decide)).1,
   (c6_insert_then_access_roundtrip.1 l1_zero_cache 0 (fun i => 50 + i) 0 0 1 0
      (fun _ => 0)).1⟩

/-! ### Claim C7 -/

theorem l2_scan_cons_ref (s : L2_CACHE_SET) (x : Nat) (l : List Nat)
    (a b c : Option Nat) (hinv : l2_way_invalid (s x) = false)
    (hr0 : l2_way_r0 (s x) = false) :
    l2_scan s (x :: l) a b c =
      l2_scan s l a b (if l2_way_d0 (s x) then some x else c) := by
  cases hd : l2_way_d0 (s x) <;> simp [l2_scan, hinv, hr0, hd]

theorem l2_scan_cons_r0d0 (s : L2_CACHE_SET) (x : Nat) (l : List Nat)
    (a b c : Option Nat) (hinv : l2_way_invalid (s x) = false)
    (hr0 : l2_way_r0 (s x) = true) (hd0 : l2_way_d0 (s x) = true) :
    l2_scan s (x :: l) a b c = l2_scan s l (some x) b c := by
  simp [l2_scan, hinv, hr0, hd0]

theorem l2_scan_ref_frozen (s : L2_CACHE_SET) :
    ∀ (l : List Nat) (a b c : Option Nat),
      (∀ x ∈ l, l2_way_invalid (s x) = false) →
      (∀ x ∈ l, l2_way_r0 (s x) = false) →
      ∃ c2, l2_scan s l a b c = Sum.inr (a, b, c2) := by
  intro l
  induction l with
  | nil =>
    intro a b c _ _
    exact ⟨c, rfl⟩
  | cons x rest ih =>
    intro a b c hinv hr0
    rw [l2_scan_cons_ref s x rest a b c (hinv x (List.mem_cons_self x rest))
      (hr0 x (List.mem_cons_self x rest))]
    exact ih a b _ (fun y hy => hinv y (List.mem_cons_of_mem x hy))
      (fun y hy => hr0 y (List.mem_cons_of_mem x hy))

/-- Claim C7: in a full (all-valid) set in which exactly one way has
reference = false and dirty = false and the other three ways have
reference = true, `l2_insert_line` evicts exactly that way, whichever way
position it occupies: the victim is that way, the new tag lands there, and
the other three ways are untouched. -/
theorem c7_unique_r0d0_way_evicted (cache : L2Cache) (address : Nat)
    (data : CacheLine) (ewa : Nat) (ewd : CacheLine) (st : Nat) (w : Nat)
    (hw4 : w < L2_LINES_PER_SET)
    (hvalid : ∀ i, i < L2_LINES_PER_SET →
      l2_way_invalid (cache (l2_set_index address) i) = false)
    (hwr0 : l2_way_r0 (cache (l2_set_index address) w) = true)
    (hwd0 : l2_way_d0 (cache (l2_set_index address) w) = true)
    (hothers : ∀ i, i < L2_LINES_PER_SET → i ≠ w →
      l2_way_r0 (cache (l2_set_index address) i) = false) :
    l2_victim_way (cache (l2_set_index address)) = w ∧
    ((l2_insert_line cache address data ewa ewd st).1 (l2_set_index address)
        w).v_r_d_tag &&& L2_ENTRY_TAG_MASK = l2_addr_tag address ∧
    (∀ i, i < L2_LINES_PER_SET → i ≠ w →
      (l2_insert_line cache address data ewa ewd st).1 (l2_set_index address) i =
        cache (l2_set_index address) i) := by
  have hrange : List.range L2_LINES_PER_SET = [0, 1, 2, 3] := by decide
  have hvic : l2_victim_way (cache (l2_set_index address)) = w := by
    rw [l2_victim_way, hrange]
    have h4 : w < 4 := hw4
    interval_cases w
    · rw [l2_scan_cons_r0d0 _ _ _ _ _ _ (hvalid 0 (by decide)) hwr0 hwd0]
      obtain ⟨c2, hsc⟩ := l2_scan_ref_frozen (cache (l2_set_index address))
        [1, 2, 3] (some 0) none none
        (by intro x hx; fin_cases hx <;> exact hvalid _ (by decide))
        (by intro x hx; fin_cases hx <;> exact hothers _ (by decide) (by decide))
      rw [hsc]
      rfl
    · rw [l2_scan_cons_ref _ _ _ _ _ _ (hvalid 0 (by decide))
        (hothers 0 (by decide) (by decide))]
      rw [l2_scan_cons_r0d0 _ _ _ _ _ _ (hvalid 1 (by decide)) hwr0 hwd0]
      obtain ⟨c2, hsc⟩ := l2_scan_ref_frozen (cache (l2_set_index address))
        [2, 3] (some 1) none _
        (by intro x hx; fin_cases hx <;> exact hvalid _ (by decide))
        (by intro x hx; fin_cases hx <;> exact hothers _ (by decide) (by decide))
      rw [hsc]
      rfl
    · rw [l2_scan_cons_ref _ _ _ _ _ _ (hvalid 0 (by decide))
        (hothers 0 (by decide) (by decide))]
      rw [l2_scan_cons_ref _ _ _ _ _ _ (hvalid 1 (by decide))
        (hothers 1 (by decide) (by decide))]
      rw [l2_scan_cons_r0d0 _ _ _ _ _ _ (hvalid 2 (by decide)) hwr0 hwd0]
      obtain ⟨c2, hsc⟩ := l2_scan_ref_frozen (cache (l2_set_index address))
        [3] (some 2) none _
        (by intro x hx; fin_cases hx <;> exact hvalid _ (by decide))
        (by intro x hx; fin_cases hx <;> exact hothers _ (by decide) (by decide))
      rw [hsc]
      rfl
    · rw [l2_scan_cons_ref _ _ _ _ _ _ (hvalid 0 (by decide))
        (hothers 0 (by decide) (by decide))]
      rw [l2_scan_cons_ref _ _ _ _ _ _ (hvalid 1 (by decide))
        (hothers 1 (by decide) (by decide))]
      rw [l2_scan_cons_ref _ _ _ _ _ _ (hvalid 2 (by decide))
        (hothers 2 (by decide) (by decide))]
      rw [l2_scan_cons_r0d0 _ _ _ _ _ _ (hvalid 3 (by decide)) hwr0 hwd0]
      rfl
  refine ⟨hvic, ?_, ?_⟩
  · rw [l2_insert_line_state, hvic, updateL2_self]
    exact l2_new_tag_eq _ _ (l2_addr_tag_lt address)
  · intro i hi hiw
    rw [l2_insert_line_state, hvic, updateL2_ne_line _ _ _ _ _ hiw]

/-- Witness for C7: a concrete full set with the single clean unreferenced
line at way 2 (the other ways referenced), where the insert evicts way 2. -/
theorem c7_unique_r0d0_way_evicted_witness :
    (∀ i, i < L2_LINES_PER_SET →
      l2_way_invalid (((fun _ => fun line =>
        { v_r_d_tag := if line = 2 then L2_VBIT_MASK ||| line
                       else (L2_VBIT_MASK ||| L2_RBIT_MASK) ||| line,
          cache_line := fun _ => 0 }) : L2Cache) (l2_set_index (7 <<< 18)) i) =
        false) ∧
    l2_victim_way (((fun _ => fun line =>
        { v_r_d_tag := if line = 2 then L2_VBIT_MASK ||| line
                       else (L2_VBIT_MASK ||| L2_RBIT_MASK) ||| line,
          cache_line := fun _ => 0 }) : L2Cache) (l2_set_index (7 <<< 18))) = 2 :=
  ⟨by decide,
   (c7_unique_r0d0_way_evicted (fun _ => fun line =>
        { v_r_d_tag := if line = 2 then L2_VBIT_MASK ||| line
                       else (L2_VBIT_MASK ||| L2_RBIT_MASK) ||| line,
          cache_line := fun _ => 0 })
      (7 <<< 18) (fun _ => 3) 0 (fun _ => 0) 0 2 (by decide)
      (by intro i hi; have hi4 : i < 4 := hi; interval_cases i <;> decide)
      (by decide) (by decide)
      (by intro i hi hne; have hi4 : i < 4 := hi; interval_cases i <;>
        first | decide | exact absurd rfl hne)).1⟩

/-- Witness for C3: the decoded index of a concrete address is in range. -/
theorem c3_l1_entry_count_witness : l1_entry_index 0xdeadbeef < 1024 :=
  c3_l1_entry_count.2.2 0xdeadbeef
